import Mathlib

/-!
# Faculty scraper core: shallow embedding and verification

This file embeds the core algorithms of the faculty-scraper repository in
Lean 4 and proves properties of them:

* the enrichment merge engine (src/pipeline/steps/E3-merge-data.ts,
  function mergeEnrichmentData),
* the reconciliation / deduplication engine
  (src/pipeline/steps/06-deduplicate.ts, functions deduplicate,
  checkDuplicate, checkForChanges, calculateMatchConfidence),
* the step recorder (src/debug/step-recorder.ts) and the pipeline runner
  (src/pipeline/runner.ts, functions runPipeline, runStepWithTracking,
  createResult),
* the persist and enqueue steps (07-persist.ts, 08-queue-enrich.ts) and the
  repository operations they use (src/db/repositories/researchers.ts,
  enrichment-queue.ts, jobs.ts, directories.ts).

Modelling conventions:

* TypeScript optional fields (x?: T) become Option values; JavaScript
  truthiness tests on strings and numbers are made explicit
  (strTruthy, ratTruthy: the empty string, 0 and undefined are falsy).
* JavaScript numbers are modelled as exact rationals.
* JSON values (the step recorder persists JSON.stringify output) are
  modelled by the inductive type Value.
* The SQLite store is modelled as in-memory lists of rows; SELECT with a
  WHERE clause returning one row becomes List.find?.
* Wall-clock readings (Date.now(), toISOString()) are passed in as explicit
  parameters or omitted where no property depends on them.
* HTML fetching, CSS-selector extraction and text normalization (steps 2-5)
  are external collaborators per the specification; the pipeline-runner
  embedding takes their outcome as function parameters.
-/

namespace FacultyScraper

/-- JSON-like values, as produced by JSON.stringify / JSON.parse. -/
inductive Value : Type where
  | vnull : Value
  | vstr : String → Value
  | vnum : ℚ → Value
  | vbool : Bool → Value
  | varr : List Value → Value
  | vobj : List (String × Value) → Value
deriving Repr

/-- JavaScript truthiness of an optional string: undefined and "" are falsy. -/
def strTruthy : Option String → Bool
  | some s => !s.isEmpty
  | none => false

/-- JavaScript truthiness of an optional number: undefined and 0 are falsy. -/
def ratTruthy : Option ℚ → Bool
  | some q => decide (q ≠ 0)
  | none => false

/-- JavaScript (value || null) on an optional string: undefined and ""
both become null. -/
def optStr (o : Option String) : Option String :=
  if strTruthy o then o else none

/-- Canonical (store-resident) researcher row, from the Researcher interface
in src/pipeline/types.ts.  citations_total and publications_count are
non-optional there (SQLite columns with DEFAULT 0). -/
structure Researcher where
  id : ℤ
  first_name : String
  last_name : String
  full_name : String
  university : Option String
  department : Option String
  title : Option String
  email : Option String
  phone : Option String
  office : Option String
  website : Option String
  photo_url : Option String
  google_scholar_url : Option String
  dblp_url : Option String
  semantic_scholar_id : Option String
  orcid : Option String
  h_index : Option ℚ
  citations_total : ℚ
  publications_count : ℚ
  research_areas : Option (List String)
  bio : Option String
  source_directory_id : Option ℤ
  enrichment_status : String
  enrichment_error : Option String
  last_verified : Option String
  created_at : String
  updated_at : String
deriving Repr, DecidableEq

/-- A blank researcher row, convenience base for concrete instances. -/
def blankResearcher : Researcher where
  id := 0
  first_name := ""
  last_name := ""
  full_name := ""
  university := none
  department := none
  title := none
  email := none
  phone := none
  office := none
  website := none
  photo_url := none
  google_scholar_url := none
  dblp_url := none
  semantic_scholar_id := none
  orcid := none
  h_index := none
  citations_total := 0
  publications_count := 0
  research_areas := none
  bio := none
  source_directory_id := none
  enrichment_status := "pending"
  enrichment_error := none
  last_verified := none
  created_at := ""
  updated_at := ""

/-- Publication candidate as proposed by enrichment
(Omit of Publication over id/created_at/updated_at in types.ts). -/
structure PubInput where
  title : String
  authors : Option (List String)
  venue : Option String
  venue_type : Option String
  year : Option ℚ
  doi : Option String
  url : Option String
  abstract : Option String
  citations : ℚ
deriving Repr, DecidableEq

/-- EnrichedData from src/pipeline/types.ts. -/
structure EnrichedData where
  publications : List PubInput
  h_index : Option ℚ
  citations_total : Option ℚ
  research_areas : Option (List String)
  bio : Option String
  google_scholar_url : Option String
  dblp_url : Option String
  semantic_scholar_id : Option String
  orcid : Option String
deriving Repr, DecidableEq

/-- An enrichment bundle with every field absent. -/
def blankEnriched : EnrichedData where
  publications := []
  h_index := none
  citations_total := none
  research_areas := none
  bio := none
  google_scholar_url := none
  dblp_url := none
  semantic_scholar_id := none
  orcid := none

/-- Partial researcher update (Partial of Researcher in TypeScript):
every field optional, only the fields the merge decided to write. -/
structure PartialResearcher where
  h_index : Option ℚ
  citations_total : Option ℚ
  research_areas : Option (List String)
  bio : Option String
  google_scholar_url : Option String
  dblp_url : Option String
  semantic_scholar_id : Option String
  orcid : Option String
  enrichment_status : Option String
  last_verified : Option String
deriving Repr, DecidableEq

/-- Resolution taken for one merge conflict (types.ts MergeConflict). -/
inductive MergeResolution : Type where
  | keep_existing : MergeResolution
  | use_new : MergeResolution
  | merge : MergeResolution
deriving Repr, DecidableEq

/-- Merge conflict audit entry (types.ts MergeConflict; existing_value and
new_value are typed unknown in the source, modelled as JSON values). -/
structure MergeConflict where
  field : String
  existing_value : Value
  new_value : Value
  resolution : MergeResolution
deriving Repr

/-- StepE3Input from types.ts. -/
structure StepE3Input where
  existing : Researcher
  enriched : EnrichedData
deriving Repr

/-- StepE3Output from types.ts. -/
structure StepE3Output where
  merged : PartialResearcher
  publications_to_add : List PubInput
  conflicts : List MergeConflict
  confidence : ℚ
deriving Repr

/-- The h-index block of mergeEnrichmentData: conflict entries pushed and
value written into the partial update ("take higher value"). -/
def mergeHIndex (existing : Researcher) (enriched : EnrichedData) :
    List MergeConflict × Option ℚ :=
  match enriched.h_index with
  | some newH =>
    match existing.h_index with
    | some oldH =>
      if oldH ≠ newH then
        let useNew := decide (newH > oldH)
        ([{ field := "h_index", existing_value := .vnum oldH,
            new_value := .vnum newH,
            resolution := if useNew then .use_new else .keep_existing }],
         if useNew then some newH else none)
      else ([], none)
    | none => ([], some newH)
  | none => ([], none)

/-- The citations block of mergeEnrichmentData; existing.citations_total
is non-optional in the source types. -/
def mergeCitations (existing : Researcher) (enriched : EnrichedData) :
    List MergeConflict × Option ℚ :=
  match enriched.citations_total with
  | some newC =>
    if existing.citations_total ≠ newC then
      let useNew := decide (newC > existing.citations_total)
      ([{ field := "citations_total",
          existing_value := .vnum existing.citations_total,
          new_value := .vnum newC,
          resolution := if useNew then .use_new else .keep_existing }],
       if useNew then some newC else none)
    else ([], none)
  | none => ([], none)

/-- The research-areas block of mergeEnrichmentData (combine and dedupe);
a JS Set keeps first occurrences in insertion order, i.e. List.eraseDups. -/
def mergeAreas (existing : Researcher) (enriched : EnrichedData) :
    List MergeConflict × Option (List String) :=
  match enriched.research_areas with
  | some newAreas =>
    if newAreas.length > 0 then
      let existingAreas := existing.research_areas.getD []
      let mergedAreas := (existingAreas ++ newAreas).eraseDups
      (if existingAreas.length > 0 then
         [{ field := "research_areas",
            existing_value := .varr (existingAreas.map .vstr),
            new_value := .varr (newAreas.map .vstr),
            resolution := .merge }]
       else [],
       some mergedAreas)
    else ([], none)
  | none => ([], none)

/-- mergeEnrichmentData from src/pipeline/steps/E3-merge-data.ts.
The parameter now stands for new Date().toISOString().
Conflicts are listed in the push order of the source: h_index,
citations_total, research_areas. -/
def mergeEnrichmentData (now : String) (input : StepE3Input) : StepE3Output :=
  let existing := input.existing
  let enriched := input.enriched
  let publications_to_add := enriched.publications
  let hPair := mergeHIndex existing enriched
  let cPair := mergeCitations existing enriched
  let aPair := mergeAreas existing enriched
  -- Merge bio and URLs (prefer new if missing)
  let bioMerged := if strTruthy enriched.bio && !strTruthy existing.bio
    then enriched.bio else none
  let gsMerged := if strTruthy enriched.google_scholar_url &&
      !strTruthy existing.google_scholar_url
    then enriched.google_scholar_url else none
  let dblpMerged := if strTruthy enriched.dblp_url && !strTruthy existing.dblp_url
    then enriched.dblp_url else none
  let ssMerged := if strTruthy enriched.semantic_scholar_id &&
      !strTruthy existing.semantic_scholar_id
    then enriched.semantic_scholar_id else none
  let orcidMerged := if strTruthy enriched.orcid && !strTruthy existing.orcid
    then enriched.orcid else none
  let merged : PartialResearcher :=
    { h_index := hPair.2
      citations_total := cPair.2
      research_areas := aPair.2
      bio := bioMerged
      google_scholar_url := gsMerged
      dblp_url := dblpMerged
      semantic_scholar_id := ssMerged
      orcid := orcidMerged
      enrichment_status := some "complete"
      last_verified := some now }
  -- Calculate confidence; the source tests JS truthiness of the merged
  -- fields (0 is falsy, an array value is always truthy)
  let confidence : ℚ :=
    (1/2) + (if ratTruthy merged.h_index then 1/10 else 0)
          + (if ratTruthy merged.citations_total then 1/10 else 0)
          + (if merged.research_areas.isSome then 1/10 else 0)
          + (if publications_to_add.length > 0 then 1/5 else 0)
  { merged := merged
    publications_to_add := publications_to_add
    conflicts := hPair.1 ++ cPair.1 ++ aPair.1
    confidence := min confidence 1 }

/-! ## Reconciliation engine (06-deduplicate.ts) -/

/-- ParsedResearcher from types.ts: university and department are required
strings, the remaining descriptive fields optional. -/
structure ParsedResearcher where
  first_name : String
  last_name : String
  full_name : String
  university : String
  department : String
  title : Option String
  email : Option String
  phone : Option String
  office : Option String
  website : Option String
  photo_url : Option String
  research_areas : Option (List String)
deriving Repr, DecidableEq

/-- A blank candidate record, convenience base for concrete instances. -/
def blankParsed : ParsedResearcher where
  first_name := ""
  last_name := ""
  full_name := ""
  university := ""
  department := ""
  title := none
  email := none
  phone := none
  office := none
  website := none
  photo_url := none
  research_areas := none

/-- JavaScript toLowerCase, character by character (the identifiers and
titles compared in the source are ASCII; core String.toLower is opaque to
the kernel, so the map is spelled out on the character list). -/
def lowerString (s : String) : String :=
  String.mk (s.data.map Char.toLower)

/-- JavaScript s.split(sep) for a one-character separator (core
String.splitOn is opaque to the kernel). -/
def splitChar (sep : Char) : List Char → List (List Char)
  | [] => [[]]
  | c :: rest =>
    let r := splitChar sep rest
    if c == sep then [] :: r
    else
      match r with
      | h :: t => (c :: h) :: t
      | [] => [[c]]

/-- needle occurs as a contiguous run inside hay. -/
def containsChars : List Char → List Char → Bool
  | hay, needle =>
    needle.isPrefixOf hay ||
      match hay with
      | [] => false
      | _ :: t => containsChars t needle

/-- JavaScript a.includes(b): b occurs as a contiguous substring of a. -/
def strIncludes (a b : String) : Bool :=
  containsChars a.data b.data

/-- JavaScript email.split(at)[1]: the piece after the first at sign,
undefined when the string has no at sign. -/
def emailDomain (s : String) : Option String :=
  ((splitChar '@' s.data).map String.mk)[1]?

/-- JavaScript phone.replace(non-digits, empty): the digit characters. -/
def phoneDigits (s : String) : List Char :=
  s.data.filter Char.isDigit

/-- researchersRepository.findByEmail: SELECT ... WHERE email = ? with the
query string lowercased before comparison. -/
def findByEmail (store : List Researcher) (email : String) : Option Researcher :=
  store.find? (fun x => x.email == some (lowerString email))

/-- researchersRepository.findByNameAndUniversity: SELECT ... WHERE
full_name = ? AND university = ?, and AND department = ? only when the
department argument is truthy (non-empty). -/
def findByNameAndUniversity (store : List Researcher) (fullName university department : String) : Option Researcher :=
  store.find? (fun x =>
    x.full_name == fullName && x.university == some university &&
      (department == "" || x.department == some department))

/-- One clause of checkForChanges: incoming field is truthy and differs
from the stored value (a string never equals undefined in JS). -/
def strFieldChanged (incoming stored : Option String) : Bool :=
  strTruthy incoming && incoming != stored

/-- checkForChanges from 06-deduplicate.ts. -/
def checkForChanges (incoming : ParsedResearcher) (existing : Researcher) : Bool :=
  strFieldChanged incoming.title existing.title ||
  strFieldChanged incoming.email existing.email ||
  strFieldChanged incoming.phone existing.phone ||
  strFieldChanged incoming.office existing.office ||
  strFieldChanged incoming.website existing.website ||
  (match incoming.research_areas with
   | some areas =>
     areas.length > 0 &&
       !(areas.filter (fun a => !(existing.research_areas.getD []).contains a)).isEmpty
   | none => false)

/-- Title bonus of calculateMatchConfidence: 0.2 for an exact
case-insensitive match, 0.1 for a substring match either way. -/
def titleBonus (incoming : ParsedResearcher) (existing : Researcher) : ℚ :=
  match incoming.title, existing.title with
  | some it, some et =>
    if it.isEmpty || et.isEmpty then 0
    else if lowerString it == lowerString et then 1/5
    else if strIncludes (lowerString it) (lowerString et) ||
        strIncludes (lowerString et) (lowerString it) then 1/10
    else 0
  | _, _ => 0

/-- Email-domain bonus of calculateMatchConfidence: 0.15 when the parts
after the at sign agree (both-undefined compares equal, as in JS). -/
def emailBonus (incoming : ParsedResearcher) (existing : Researcher) : ℚ :=
  match incoming.email, existing.email with
  | some ie, some ee =>
    if ie.isEmpty || ee.isEmpty then 0
    else if emailDomain ie == emailDomain ee then 3/20 else 0
  | _, _ => 0

/-- Phone-digits bonus of calculateMatchConfidence: 0.1 when the digit
sequences agree. -/
def phoneBonus (incoming : ParsedResearcher) (existing : Researcher) : ℚ :=
  match incoming.phone, existing.phone with
  | some ip, some ep =>
    if ip.isEmpty || ep.isEmpty then 0
    else if phoneDigits ip == phoneDigits ep then 1/10 else 0
  | _, _ => 0

/-- Website-hostname bonus of calculateMatchConfidence: 0.05 when both
URLs parse and the hostnames agree; a parse failure (new URL throwing,
modelled by the hostname parameter returning none) yields no bonus. -/
def websiteBonus (hostname : String → Option String) (incoming : ParsedResearcher) (existing : Researcher) : ℚ :=
  match incoming.website, existing.website with
  | some iw, some ew =>
    if iw.isEmpty || ew.isEmpty then 0
    else
      match hostname iw, hostname ew with
      | some ih, some eh => if ih == eh then 1/20 else 0
      | _, _ => 0
  | _, _ => 0

/-- calculateMatchConfidence from 06-deduplicate.ts: base 0.5 plus the
four additive bonuses, capped by Math.min at 1.0.  The hostname parameter
models new URL(...).hostname (none = URL constructor throws). -/
def calculateMatchConfidence (hostname : String → Option String) (incoming : ParsedResearcher) (existing : Researcher) : ℚ :=
  min (1/2 + titleBonus incoming existing + emailBonus incoming existing +
       phoneBonus incoming existing + websiteBonus hostname incoming existing) 1

/-- Dedupe action (types.ts DedupeDecision.action). -/
inductive DedupeAction : Type where
  | insert : DedupeAction
  | update : DedupeAction
  | skip : DedupeAction
deriving Repr, DecidableEq

/-- DedupeDecision from types.ts. -/
structure DedupeDecision where
  researcher : ParsedResearcher
  action : DedupeAction
  existing_id : Option ℤ
  match_reason : Option String
  confidence : ℚ
deriving Repr, DecidableEq

/-- (confidence * 100).toFixed(0): round half away from zero; the scores
produced here are non-negative, so this is round half up. -/
def pctString (q : ℚ) : String :=
  toString ⌊q * 100 + 1/2⌋

/-- The email branch of checkDuplicate (strongest match, checked first):
some decision when the candidate has a truthy email that finds a stored
record. -/
def emailCheck (store : List Researcher) (researcher : ParsedResearcher) :
    Option DedupeDecision :=
  match researcher.email with
  | some em =>
    if em.isEmpty then none
    else
      match findByEmail store em with
      | some byEmail =>
        if checkForChanges researcher byEmail then
          some { researcher := researcher, action := .update,
                 existing_id := some byEmail.id,
                 match_reason := some "Email match with data changes",
                 confidence := 1 }
        else
          some { researcher := researcher, action := .skip,
                 existing_id := some byEmail.id,
                 match_reason := some "Exact email match",
                 confidence := 1 }
      | none => none
  | none => none

/-- The name+university branch of checkDuplicate: some decision when the
candidate has a truthy university, the composite lookup finds a record
and the computed confidence reaches the 0.9 usability threshold. -/
def nameCheck (hostname : String → Option String) (store : List Researcher)
    (researcher : ParsedResearcher) : Option DedupeDecision :=
  if researcher.university.isEmpty then none
  else
    match findByNameAndUniversity store researcher.full_name
        researcher.university researcher.department with
    | some byName =>
      let confidence := calculateMatchConfidence hostname researcher byName
      if confidence ≥ 9/10 then
        if checkForChanges researcher byName then
          some { researcher := researcher, action := .update,
                 existing_id := some byName.id,
                 match_reason := some ("Name+university match (" ++
                   pctString confidence ++ "% confidence)"),
                 confidence := confidence }
        else
          some { researcher := researcher, action := .skip,
                 existing_id := some byName.id,
                 match_reason := some "Exact name+university match",
                 confidence := confidence }
      else none
    | none => none

/-- checkDuplicate from 06-deduplicate.ts.  The directoryId argument is
unused in the source (named _directoryId there). -/
def checkDuplicate (hostname : String → Option String) (store : List Researcher)
    (researcher : ParsedResearcher) (_directoryId : ℤ) : DedupeDecision :=
  match emailCheck store researcher with
  | some d => d
  | none =>
    match nameCheck hostname store researcher with
    | some d => d
    | none =>
      { researcher := researcher, action := .insert,
        existing_id := none, match_reason := none, confidence := 1 }

/-- Step6Input from types.ts. -/
structure Step6Input where
  researchers : List ParsedResearcher
  directory_id : ℤ
deriving Repr

/-- Element of Step6Output.to_update. -/
structure UpdateEntry where
  researcher : ParsedResearcher
  existing_id : ℤ
deriving Repr, DecidableEq

/-- Element of Step6Output.duplicates. -/
structure DupEntry where
  researcher : ParsedResearcher
  existing_id : ℤ
  reason : String
deriving Repr, DecidableEq

/-- Step6Output.stats from types.ts. -/
structure Step6Stats where
  total_input : ℕ
  to_insert : ℕ
  to_update : ℕ
  duplicates : ℕ
deriving Repr, DecidableEq

/-- Step6Output from types.ts. -/
structure Step6Output where
  to_insert : List ParsedResearcher
  to_update : List UpdateEntry
  duplicates : List DupEntry
  stats : Step6Stats
deriving Repr

/-- The dispatch loop of deduplicate: one decision per candidate, pushed
onto one of the three output lists.  The update and skip branches push
only when decision.existing_id is truthy (present and non-zero). -/
def dedupStep (d : DedupeDecision) (r : ParsedResearcher)
    (acc : List ParsedResearcher × List UpdateEntry × List DupEntry) :
    List ParsedResearcher × List UpdateEntry × List DupEntry :=
  match d.action with
  | .insert => (r :: acc.1, acc.2.1, acc.2.2)
  | .update =>
    match d.existing_id with
    | some eid =>
      if eid ≠ 0 then (acc.1, ⟨r, eid⟩ :: acc.2.1, acc.2.2) else acc
    | none => acc
  | .skip =>
    match d.existing_id with
    | some eid =>
      if eid ≠ 0 then
        (acc.1, acc.2.1, ⟨r, eid, d.match_reason.getD "Exact duplicate"⟩ :: acc.2.2)
      else acc
    | none => acc

/-- The full dispatch loop of deduplicate. -/
def dedupLists (hostname : String → Option String) (store : List Researcher)
    (directoryId : ℤ) :
    List ParsedResearcher → List ParsedResearcher × List UpdateEntry × List DupEntry
  | [] => ([], [], [])
  | r :: rest =>
    dedupStep (checkDuplicate hostname store r directoryId) r
      (dedupLists hostname store directoryId rest)

/-- deduplicate from 06-deduplicate.ts. -/
def deduplicate (hostname : String → Option String) (store : List Researcher)
    (input : Step6Input) : Step6Output :=
  let lists := dedupLists hostname store input.directory_id input.researchers
  { to_insert := lists.1
    to_update := lists.2.1
    duplicates := lists.2.2
    stats :=
      { total_input := input.researchers.length
        to_insert := lists.1.length
        to_update := lists.2.1.length
        duplicates := lists.2.2.length } }

/-! ## Store model (SQLite tables as in-memory lists) -/

/-- Row of the enrichment_queue table.  createdSeq models the created_at
insertion order (a monotone counter instead of a wall-clock timestamp). -/
structure QueueItem where
  id : ℤ
  researcher_id : ℤ
  priority : ℚ
  status : String
  createdSeq : ℕ
deriving Repr, DecidableEq

/-- Row of the scrape_jobs table (the fields the runner touches). -/
structure JobRow where
  job_id : String
  directory_id : ℤ
  scrape_type : String
  status : String
  current_step : Option String
  error_message : Option String
  records_found : ℚ
  records_created : ℚ
  records_updated : ℚ
  records_skipped : ℚ
deriving Repr, DecidableEq

/-- Scrape configuration blob (types.ts ScrapeConfig), selectors as a
string-to-string map; scroll_config is passthrough-only in the runner and
modelled as an opaque string blob. -/
structure ScrapeConfig where
  selectors : Option (List (String × String))
  load_more_selector : Option String
  scroll_config : Option String
deriving Repr, DecidableEq

/-- Row of the directories table (the fields the runner touches). -/
structure Directory where
  id : ℤ
  university : String
  department : String
  directory_url : String
  scrape_method : String
  scrape_config : Option ScrapeConfig
  is_active : Bool
  records_last_scrape : ℚ
deriving Repr, DecidableEq

/-- The persistent store: directories, researchers (with the AUTOINCREMENT
counter), the enrichment queue (with its counter) and scrape jobs. -/
structure DB where
  directories : List Directory
  researchers : List Researcher
  nextResearcherId : ℤ
  queue : List QueueItem
  nextQueueId : ℤ
  jobs : List JobRow
deriving Repr

/-- A store with no rows; AUTOINCREMENT counters start at 1. -/
def emptyDB : DB where
  directories := []
  researchers := []
  nextResearcherId := 1
  queue := []
  nextQueueId := 1
  jobs := []

/-- directoriesRepository.findById. -/
def dirFindById (db : DB) (id : ℤ) : Option Directory :=
  db.directories.find? (fun d => d.id == id)

/-- directoriesRepository.updateLastScraped. -/
def dirUpdateLastScraped (db : DB) (id : ℤ) (count : ℚ) : DB :=
  { db with directories := db.directories.map (fun d =>
      if d.id == id then { d with records_last_scrape := count } else d) }

/-- jobsRepository.create.  The repository generates its own job_id
(rowJobId); the caller-side uuid is not passed in, see runner.ts line 57. -/
def jobsCreate (db : DB) (rowJobId : String) (directoryId : ℤ) (scrapeType : String) : DB :=
  { db with jobs := db.jobs ++
      [{ job_id := rowJobId, directory_id := directoryId,
         scrape_type := scrapeType, status := "pending",
         current_step := none, error_message := none,
         records_found := 0, records_created := 0,
         records_updated := 0, records_skipped := 0 }] }

/-- jobsRepository.updateStatus: terminal statuses also store the error
message (errorMessage || null). -/
def jobsUpdateStatus (db : DB) (jobId status : String) (errorMessage : Option String) : DB :=
  { db with jobs := db.jobs.map (fun j =>
      if j.job_id == jobId then
        if status == "success" || status == "failed" || status == "cancelled" then
          { j with status := status, error_message := optStr errorMessage }
        else { j with status := status }
      else j) }

/-- jobsRepository.updateCurrentStep. -/
def jobsUpdateCurrentStep (db : DB) (jobId stepName : String) : DB :=
  { db with jobs := db.jobs.map (fun j =>
      if j.job_id == jobId then { j with current_step := some stepName } else j) }

/-- jobsRepository.updateStats: each field updated only when provided. -/
def jobsUpdateStats (db : DB) (jobId : String)
    (found created updated skipped : Option ℚ) : DB :=
  { db with jobs := db.jobs.map (fun j =>
      if j.job_id == jobId then
        { j with records_found := found.getD j.records_found
                 records_created := created.getD j.records_created
                 records_updated := updated.getD j.records_updated
                 records_skipped := skipped.getD j.records_skipped }
      else j) }

/-- researchersRepository.create: INSERT with (value || null) coercions on
optional text fields, email lowercased; returns none when a uniqueness
constraint fires (UNIQUE email when non-null; UNIQUE(full_name,
university, department) with SQLite treating NULL components as
distinct). -/
def researchersCreate (now : String) (db : DB) (data : ParsedResearcher)
    (sourceDirId : ℤ) : DB × Option Researcher :=
  let email := optStr (data.email.map lowerString)
  let univ := optStr (some data.university)
  let dept := optStr (some data.department)
  let emailConflict := email.isSome &&
    db.researchers.any (fun r => r.email == email)
  let nameConflict := univ.isSome && dept.isSome &&
    db.researchers.any (fun r =>
      r.full_name == data.full_name && r.university == univ && r.department == dept)
  if emailConflict || nameConflict then (db, none)
  else
    let newR : Researcher :=
      { blankResearcher with
        id := db.nextResearcherId
        first_name := data.first_name
        last_name := data.last_name
        full_name := data.full_name
        university := univ
        department := dept
        title := optStr data.title
        email := email
        phone := optStr data.phone
        office := optStr data.office
        website := optStr data.website
        photo_url := optStr data.photo_url
        research_areas := data.research_areas
        source_directory_id := if sourceDirId == 0 then none else some sourceDirId
        enrichment_status := "pending"
        created_at := now
        updated_at := now }
    ({ db with researchers := db.researchers ++ [newR]
               nextResearcherId := db.nextResearcherId + 1 },
     some newR)

/-- The Record built by buildUpdateData in 07-persist.ts: only truthy
fields of the candidate, plus a fresh last_verified timestamp. -/
structure UpdateData where
  title : Option String
  email : Option String
  phone : Option String
  office : Option String
  website : Option String
  photo_url : Option String
  research_areas : Option (List String)
  last_verified : String
deriving Repr, DecidableEq

/-- buildUpdateData from 07-persist.ts. -/
def buildUpdateData (researcher : ParsedResearcher) (now : String) : UpdateData where
  title := if strTruthy researcher.title then researcher.title else none
  email := if strTruthy researcher.email then researcher.email else none
  phone := if strTruthy researcher.phone then researcher.phone else none
  office := if strTruthy researcher.office then researcher.office else none
  website := if strTruthy researcher.website then researcher.website else none
  photo_url := if strTruthy researcher.photo_url then researcher.photo_url else none
  research_areas :=
    match researcher.research_areas with
    | some areas => if areas.length > 0 then some areas else none
    | none => none
  last_verified := now

/-- researchersRepository.update restricted to the fields buildUpdateData
produces: set each provided field (email lowercased when truthy); returns
false when no row has the id.  Uniqueness violations on update are not
modelled (no pipeline path relies on them). -/
def researchersUpdate (db : DB) (id : ℤ) (u : UpdateData) : DB × Bool :=
  if db.researchers.any (fun r => r.id == id) then
    ({ db with researchers := db.researchers.map (fun r =>
        if r.id == id then
          { r with
            title := if u.title.isSome then u.title else r.title
            email := match u.email with
                     | some s => some (if !s.isEmpty then lowerString s else s)
                     | none => r.email
            phone := if u.phone.isSome then u.phone else r.phone
            office := if u.office.isSome then u.office else r.office
            website := if u.website.isSome then u.website else r.website
            photo_url := if u.photo_url.isSome then u.photo_url else r.photo_url
            research_areas := match u.research_areas with
                              | some areas => some areas
                              | none => r.research_areas
            last_verified := some u.last_verified }
        else r) },
     true)
  else (db, false)

/-! ## Persist step (07-persist.ts) and enqueue step (08-queue-enrich.ts) -/

/-- Step7Input from types.ts. -/
structure Step7Input where
  to_insert : List ParsedResearcher
  to_update : List UpdateEntry
  job_id : String
  directory_id : ℤ
deriving Repr

/-- Step7Output.job_stats from types.ts. -/
structure JobStats7 where
  records_created : ℕ
  records_updated : ℕ
  records_skipped : ℕ
deriving Repr, DecidableEq

/-- Step7Output from types.ts. -/
structure Step7Output where
  inserted_ids : List ℤ
  updated_ids : List ℤ
  job_stats : JobStats7
deriving Repr, DecidableEq

/-- The insert loop of persist: each create failure is caught and counted
as skipped. -/
def persistInsertLoop (now : String) (dirId : ℤ) (db : DB) :
    List ParsedResearcher → DB × List ℤ × ℕ
  | [] => (db, [], 0)
  | r :: rest =>
    match researchersCreate now db r dirId with
    | (db1, some created) =>
      let acc := persistInsertLoop now dirId db1 rest
      (acc.1, created.id :: acc.2.1, acc.2.2)
    | (db1, none) =>
      let acc := persistInsertLoop now dirId db1 rest
      (acc.1, acc.2.1, acc.2.2 + 1)

/-- The update loop of persist: a missing row counts as skipped. -/
def persistUpdateLoop (now : String) (db : DB) :
    List UpdateEntry → DB × List ℤ × ℕ
  | [] => (db, [], 0)
  | e :: rest =>
    match researchersUpdate db e.existing_id (buildUpdateData e.researcher now) with
    | (db1, true) =>
      let acc := persistUpdateLoop now db1 rest
      (acc.1, e.existing_id :: acc.2.1, acc.2.2)
    | (db1, false) =>
      let acc := persistUpdateLoop now db1 rest
      (acc.1, acc.2.1, acc.2.2 + 1)

/-- persist from 07-persist.ts: inserts, then updates, then writes the job
statistics.  A failure of the surrounding SQLite transaction itself (store
unavailable) is not modelled; per-record failures are. -/
def persistStep (now : String) (db : DB) (input : Step7Input) : DB × Step7Output :=
  let ins := persistInsertLoop now input.directory_id db input.to_insert
  let upd := persistUpdateLoop now ins.1 input.to_update
  let db2 := jobsUpdateStats upd.1 input.job_id
    (some ((input.to_insert.length : ℚ) + input.to_update.length))
    (some (ins.2.1.length : ℚ)) (some (upd.2.1.length : ℚ))
    (some ((ins.2.2 + upd.2.2 : ℕ) : ℚ))
  (db2,
   { inserted_ids := ins.2.1
     updated_ids := upd.2.1
     job_stats :=
       { records_created := ins.2.1.length
         records_updated := upd.2.1.length
         records_skipped := ins.2.2 + upd.2.2 } })

/-- Step8Input from types.ts. -/
structure Step8Input where
  researcher_ids : List ℤ
  priority : Option ℚ
deriving Repr

/-- Step8Output from types.ts. -/
structure Step8Output where
  queued_count : ℕ
  already_queued : ℕ
  queue_positions : List (ℤ × ℕ)
deriving Repr, DecidableEq

/-- enrichmentQueueRepository.add: INSERT, with the unique-constraint
failure (researcher already queued) caught and ignored. -/
def queueAdd (db : DB) (rid : ℤ) (priority : ℚ) : DB :=
  if db.queue.any (fun q => q.researcher_id == rid) then db
  else
    { db with
      queue := db.queue ++
        [{ id := db.nextQueueId, researcher_id := rid, priority := priority,
           status := "pending", createdSeq := db.queue.length }]
      nextQueueId := db.nextQueueId + 1 }

/-- enrichmentQueueRepository.getPosition: COUNT(*)+1 over pending items
that sort strictly earlier; when the researcher is not queued every NULL
comparison is false and the query yields position 1. -/
def queueGetPosition (db : DB) (rid : ℤ) : Option ℕ :=
  match db.queue.find? (fun q => q.researcher_id == rid) with
  | some it =>
    some (1 + (db.queue.filter (fun q =>
      q.status == "pending" &&
        (q.priority < it.priority ||
         (q.priority == it.priority && q.createdSeq < it.createdSeq)))).length)
  | none => some 1

/-- The per-researcher loop of queueForEnrichment. -/
def queueLoop (priority : ℚ) (db : DB) : List ℤ → DB × ℕ × List (ℤ × ℕ)
  | [] => (db, 0, [])
  | rid :: rest =>
    match db.queue.find? (fun q => q.researcher_id == rid) with
    | some _ =>
      let posHere := match queueGetPosition db rid with
        | some p => [(rid, p)]
        | none => []
      let acc := queueLoop priority db rest
      (acc.1, acc.2.1 + 1, posHere ++ acc.2.2)
    | none =>
      let db1 := queueAdd db rid priority
      let posHere := match queueGetPosition db1 rid with
        | some p => [(rid, p)]
        | none => []
      let acc := queueLoop priority db1 rest
      (acc.1, acc.2.1, posHere ++ acc.2.2)

/-- queueForEnrichment from 08-queue-enrich.ts. -/
def queueForEnrichment (db : DB) (input : Step8Input) : DB × Step8Output :=
  let priority := input.priority.getD 5
  let res := queueLoop priority db input.researcher_ids
  (res.1,
   { queued_count := input.researcher_ids.length - res.2.1
     already_queued := res.2.1
     queue_positions := res.2.2 })

/-! ## Step recorder (src/debug/step-recorder.ts)

Wall-clock fields of a recording (startTime, endTime, durationMs) are
omitted; every other effect of the recorder is modelled: the per-stage
JSON artifacts written to the debug directory, the step_outputs rows
stored through jobsRepository.storeStepOutput, and the in-memory job
recording finalized into summary.json. -/

/-- One StepRecording (step-recorder.ts) minus the wall-clock fields. -/
structure StepRecording where
  stepName : String
  input : Value
  output : Option Value
  error : Option String
  success : Bool
deriving Repr

/-- Row of the step_outputs table (jobsRepository.storeStepOutput). -/
structure StepOutputRow where
  job_id : String
  step_name : String
  input_data : Value
  output_data : Option Value
  success : Bool
  error_message : Option String
deriving Repr

/-- Recorder-side state: the debug-directory files (newest first), the
append-only step_outputs rows, and the in-progress job recording. -/
structure TrackState where
  files : List (String × Value)
  stepRows : List StepOutputRow
  steps : List StepRecording
  currentStep : Option StepRecording
deriving Repr

/-- writeFileSync into the job's debug directory: newest entry wins. -/
def writeDebugFile (files : List (String × Value)) (name : String) (v : Value) :
    List (String × Value) :=
  (name, v) :: files

/-- Read an artifact back (readFileSync + JSON.parse). -/
def readDebugFile (files : List (String × Value)) (name : String) : Option Value :=
  (files.find? (fun p => p.1 == name)).map (fun p => p.2)

/-- createStepRecorder: fresh recording; the constructor also writes the
most-recent-job pointer file. -/
def initTrack (jobId : String) : TrackState where
  files := [("latest.txt", .vstr jobId)]
  stepRows := []
  steps := []
  currentStep := none

/-- StepRecorder.recordStepStart: set the current step, write the
stage_input.json artifact, store a step_outputs row. -/
def recordStepStart (jobId : String) (ts : TrackState) (stepName : String)
    (input : Value) : TrackState :=
  { ts with
    currentStep := some { stepName := stepName, input := input,
                          output := none, error := none, success := false }
    files := writeDebugFile ts.files (stepName ++ "_input.json") input
    stepRows := ts.stepRows ++
      [{ job_id := jobId, step_name := stepName, input_data := input,
         output_data := none, success := false, error_message := none }] }

/-- StepRecorder.recordStepEnd: when the current step matches, append the
finished recording, write the stage_output.json artifact, store a
step_outputs row. -/
def recordStepEnd (jobId : String) (ts : TrackState) (stepName : String)
    (output : Value) : TrackState :=
  match ts.currentStep with
  | some cs =>
    if cs.stepName == stepName then
      { files := writeDebugFile ts.files (stepName ++ "_output.json") output
        stepRows := ts.stepRows ++
          [{ job_id := jobId, step_name := stepName, input_data := cs.input,
             output_data := some output, success := true, error_message := none }]
        steps := ts.steps ++ [{ cs with output := some output, success := true }]
        currentStep := none }
    else ts
  | none => ts

/-- StepRecorder.recordStepError: when the current step matches, append
the failed recording, write the stage_error.json artifact (message plus
the recorded input), store a step_outputs row. -/
def recordStepError (jobId : String) (ts : TrackState) (stepName : String)
    (errMsg : String) : TrackState :=
  match ts.currentStep with
  | some cs =>
    if cs.stepName == stepName then
      { files := writeDebugFile ts.files (stepName ++ "_error.json")
          (.vobj [("message", .vstr errMsg), ("input", cs.input)])
        stepRows := ts.stepRows ++
          [{ job_id := jobId, step_name := stepName, input_data := cs.input,
             output_data := none, success := false, error_message := some errMsg }]
        steps := ts.steps ++ [{ cs with error := some errMsg, success := false }]
        currentStep := none }
    else ts
  | none => ts

/-- Encoding of a job recording step, for the finalize summary. -/
def encRecording (s : StepRecording) : Value :=
  .vobj ([("stepName", .vstr s.stepName), ("input", s.input)] ++
    (match s.output with | some o => [("output", o)] | none => []) ++
    (match s.error with
     | some e => [("error", .vobj [("message", .vstr e)])]
     | none => []) ++
    [("success", .vbool s.success)])

/-- StepRecorder.finalize: write summary.json with the whole recording. -/
def finalizeTrack (jobId : String) (ts : TrackState) : TrackState :=
  { ts with files := writeDebugFile ts.files "summary.json" (.vobj
      [("jobId", .vstr jobId),
       ("steps", .varr (ts.steps.map encRecording))]) }

/-- loadStepInput from step-recorder.ts: parse the persisted
stage_input.json artifact. -/
def loadStepInput (ts : TrackState) (stepName : String) : Option Value :=
  readDebugFile ts.files (stepName ++ "_input.json")

/-- loadStepOutput from step-recorder.ts: parse the persisted
stage_output.json artifact. -/
def loadStepOutput (ts : TrackState) (stepName : String) : Option Value :=
  readDebugFile ts.files (stepName ++ "_output.json")

/-! ## Pipeline runner (src/pipeline/runner.ts) -/

/-- PipelineOptions.mode. -/
inductive PipeMode : Type where
  | full : PipeMode
  | test : PipeMode
deriving Repr, DecidableEq

/-- PipelineOptions from runner.ts. -/
structure PipelineOptions where
  mode : PipeMode
  debug : Option Bool
  stopAfterStep : Option String
  dryRun : Option Bool
deriving Repr

/-- runStepWithTracking from runner.ts, generic in the step result type α
and in the ambient store σ the step closure reads and writes.  enc is the
JSON encoding of the result (the recorder persists JSON).  The source
passes the literal empty object as the recorded input
(recorder.recordStepStart(stepName, \x7b\x7d)) while the step closure
runs on its captured actual input. -/
def runStepWithTracking {σ α : Type} (enc : α → Value) (jobId : String)
    (updateCurrentStep : σ → String → σ) (state : σ) (ts : TrackState)
    (stepName : String) (stepFn : σ → σ × Except String α) :
    σ × TrackState × Except String α :=
  let state := updateCurrentStep state stepName
  let ts := recordStepStart jobId ts stepName (.vobj [])
  match stepFn state with
  | (state1, .ok result) =>
    (state1, recordStepEnd jobId ts stepName (enc result), .ok result)
  | (state1, .error e) =>
    (state1, recordStepError jobId ts stepName e, .error e)

/-- runStepWithTracking specialised to the store σ = DB with
jobsRepository.updateCurrentStep, for a step that does not throw; this is
definitionally the ok branch of runStepWithTracking. -/
def runStepOk {α : Type} (enc : α → Value) (jobId : String) (db : DB)
    (ts : TrackState) (stepName : String) (stepFn : DB → DB × α) :
    DB × TrackState × α :=
  let db := jobsUpdateCurrentStep db jobId stepName
  let ts := recordStepStart jobId ts stepName (.vobj [])
  let res := stepFn db
  (res.1, recordStepEnd jobId ts stepName (enc res.2), res.2)

/-- ScrapeResult from types.ts; duration_seconds is wall clock and passed
through from a parameter. -/
structure ScrapeResult where
  job_id : String
  status : String
  records_found : ℕ
  records_created : ℕ
  records_updated : ℕ
  duration_seconds : ℚ
  errors : Option (List String)
deriving Repr, DecidableEq

/-- createResult from runner.ts: failed iff errors were collected and no
records were found; the errors field is undefined when the list is
empty. -/
def createResult (jobId : String) (durationSeconds : ℚ) (errors : List String)
    (recordsFound recordsCreated recordsUpdated : ℕ) : ScrapeResult where
  job_id := jobId
  status := if errors.length > 0 && recordsFound == 0 then "failed" else "success"
  records_found := recordsFound
  records_created := recordsCreated
  records_updated := recordsUpdated
  duration_seconds := durationSeconds
  errors := if errors.length > 0 then some errors else none

/-! ## Stage I/O types of the primary pipeline (types.ts) -/

/-- Step1Output.load_more_config. -/
structure LoadMoreConfig where
  selector : String
  max_clicks : ℚ
  wait_between_clicks_ms : ℚ
deriving Repr, DecidableEq

/-- Step1Output (the shape the runner builds inline). -/
structure Step1Output where
  directory : Directory
  url : String
  scrape_method : String
  selectors : List (String × String)
  load_more_config : Option LoadMoreConfig
  scroll_config : Option String
  use_step0_html : Bool
deriving Repr

/-- Step2Output from types.ts. -/
structure Step2Output where
  html : String
  links : List String
  fetch_time_ms : ℚ
  from_cache : Bool
deriving Repr

/-- Step3Output from types.ts. -/
structure Step3Output where
  final_html : String
  clicks_performed : ℚ
  scroll_distance : ℚ
  screenshots : List String
  dynamic_content_found : Bool
deriving Repr

/-- Step4Input from types.ts. -/
structure Step4Input where
  html : String
  selectors : List (String × String)
deriving Repr

/-- RawCard from types.ts. -/
structure RawCard where
  index : ℕ
  outer_html : String
  name_text : Option String
  title_text : Option String
  email_text : Option String
  phone_text : Option String
  office_text : Option String
  website_url : Option String
  photo_url : Option String
  research_areas_text : Option String
  profile_link : Option String
deriving Repr, DecidableEq

/-- Step4Output.extraction_stats. -/
structure ExtractionStats where
  total_cards : ℕ
  cards_with_name : ℕ
  cards_with_email : ℕ
  cards_with_title : ℕ
  cards_with_website : ℕ
deriving Repr, DecidableEq

/-- Step4Output from types.ts. -/
structure Step4Output where
  raw_cards : List RawCard
  extraction_stats : ExtractionStats
deriving Repr

/-- ParseError from types.ts. -/
structure ParseError where
  card_index : ℕ
  field : String
  error : String
  raw_value : Option String
deriving Repr, DecidableEq

/-- Step5Input from types.ts. -/
structure Step5Input where
  raw_cards : List RawCard
  university : String
  department : String
deriving Repr

/-- Step5Output.normalization_stats. -/
structure NormalizationStats where
  total_parsed : ℕ
  emails_normalized : ℕ
  names_split : ℕ
  titles_standardized : ℕ
deriving Repr, DecidableEq

/-- Step5Output from types.ts. -/
structure Step5Output where
  researchers : List ParsedResearcher
  parse_errors : List ParseError
  normalization_stats : NormalizationStats
deriving Repr

/-! ## JSON encoders (JSON.stringify of the stage outputs, for the step
recorder artifacts; undefined fields are omitted, as in JSON.stringify) -/

/-- One object field, omitted when the value is undefined. -/
def jsonField (name : String) : Option Value → List (String × Value)
  | some v => [(name, v)]
  | none => []

/-- JSON encoding of a list of strings. -/
def encStrList (xs : List String) : Value :=
  .varr (xs.map .vstr)

/-- JSON encoding of a selector map. -/
def encSelectors (ps : List (String × String)) : Value :=
  .vobj (ps.map (fun p => (p.1, Value.vstr p.2)))

/-- JSON encoding of a ScrapeConfig. -/
def encScrapeConfig (c : ScrapeConfig) : Value :=
  .vobj (jsonField "selectors" (c.selectors.map encSelectors) ++
    jsonField "load_more_selector" (c.load_more_selector.map .vstr) ++
    jsonField "scroll_config" (c.scroll_config.map .vstr))

/-- JSON encoding of a Directory row. -/
def encDirectory (d : Directory) : Value :=
  .vobj ([("id", .vnum d.id), ("university", .vstr d.university),
    ("department", .vstr d.department),
    ("directory_url", .vstr d.directory_url),
    ("scrape_method", .vstr d.scrape_method)] ++
    jsonField "scrape_config" (d.scrape_config.map encScrapeConfig) ++
    [("is_active", .vbool d.is_active),
     ("records_last_scrape", .vnum d.records_last_scrape)])

/-- JSON encoding of a Step1Output. -/
def encStep1 (o : Step1Output) : Value :=
  .vobj ([("directory", encDirectory o.directory), ("url", .vstr o.url),
    ("scrape_method", .vstr o.scrape_method),
    ("selectors", encSelectors o.selectors)] ++
    jsonField "load_more_config" (o.load_more_config.map (fun l =>
      .vobj [("selector", .vstr l.selector), ("max_clicks", .vnum l.max_clicks),
             ("wait_between_clicks_ms", .vnum l.wait_between_clicks_ms)])) ++
    jsonField "scroll_config" (o.scroll_config.map .vstr) ++
    [("use_step0_html", .vbool o.use_step0_html)])

/-- JSON encoding of a Step2Output. -/
def encStep2 (o : Step2Output) : Value :=
  .vobj [("html", .vstr o.html), ("links", encStrList o.links),
    ("fetch_time_ms", .vnum o.fetch_time_ms), ("from_cache", .vbool o.from_cache)]

/-- JSON encoding of a Step3Output. -/
def encStep3 (o : Step3Output) : Value :=
  .vobj [("final_html", .vstr o.final_html),
    ("clicks_performed", .vnum o.clicks_performed),
    ("scroll_distance", .vnum o.scroll_distance),
    ("screenshots", encStrList o.screenshots),
    ("dynamic_content_found", .vbool o.dynamic_content_found)]

/-- JSON encoding of a RawCard. -/
def encRawCard (c : RawCard) : Value :=
  .vobj ([("index", .vnum c.index), ("outer_html", .vstr c.outer_html)] ++
    jsonField "name_text" (c.name_text.map .vstr) ++
    jsonField "title_text" (c.title_text.map .vstr) ++
    jsonField "email_text" (c.email_text.map .vstr) ++
    jsonField "phone_text" (c.phone_text.map .vstr) ++
    jsonField "office_text" (c.office_text.map .vstr) ++
    jsonField "website_url" (c.website_url.map .vstr) ++
    jsonField "photo_url" (c.photo_url.map .vstr) ++
    jsonField "research_areas_text" (c.research_areas_text.map .vstr) ++
    jsonField "profile_link" (c.profile_link.map .vstr))

/-- JSON encoding of a Step4Output. -/
def encStep4 (o : Step4Output) : Value :=
  .vobj [("raw_cards", .varr (o.raw_cards.map encRawCard)),
    ("extraction_stats", .vobj
      [("total_cards", .vnum o.extraction_stats.total_cards),
       ("cards_with_name", .vnum o.extraction_stats.cards_with_name),
       ("cards_with_email", .vnum o.extraction_stats.cards_with_email),
       ("cards_with_title", .vnum o.extraction_stats.cards_with_title),
       ("cards_with_website", .vnum o.extraction_stats.cards_with_website)])]

/-- JSON encoding of a ParsedResearcher. -/
def encParsed (r : ParsedResearcher) : Value :=
  .vobj ([("first_name", .vstr r.first_name), ("last_name", .vstr r.last_name),
    ("full_name", .vstr r.full_name), ("university", .vstr r.university),
    ("department", .vstr r.department)] ++
    jsonField "title" (r.title.map .vstr) ++
    jsonField "email" (r.email.map .vstr) ++
    jsonField "phone" (r.phone.map .vstr) ++
    jsonField "office" (r.office.map .vstr) ++
    jsonField "website" (r.website.map .vstr) ++
    jsonField "photo_url" (r.photo_url.map .vstr) ++
    jsonField "research_areas" (r.research_areas.map encStrList))

/-- JSON encoding of a ParseError. -/
def encParseError (e : ParseError) : Value :=
  .vobj ([("card_index", .vnum e.card_index), ("field", .vstr e.field),
    ("error", .vstr e.error)] ++
    jsonField "raw_value" (e.raw_value.map .vstr))

/-- JSON encoding of a Step5Output. -/
def encStep5 (o : Step5Output) : Value :=
  .vobj [("researchers", .varr (o.researchers.map encParsed)),
    ("parse_errors", .varr (o.parse_errors.map encParseError)),
    ("normalization_stats", .vobj
      [("total_parsed", .vnum o.normalization_stats.total_parsed),
       ("emails_normalized", .vnum o.normalization_stats.emails_normalized),
       ("names_split", .vnum o.normalization_stats.names_split),
       ("titles_standardized", .vnum o.normalization_stats.titles_standardized)])]

/-- JSON encoding of a Step6Output. -/
def encStep6 (o : Step6Output) : Value :=
  .vobj [("to_insert", .varr (o.to_insert.map encParsed)),
    ("to_update", .varr (o.to_update.map (fun e =>
      .vobj [("researcher", encParsed e.researcher),
             ("existing_id", .vnum e.existing_id)]))),
    ("duplicates", .varr (o.duplicates.map (fun e =>
      .vobj [("researcher", encParsed e.researcher),
             ("existing_id", .vnum e.existing_id),
             ("reason", .vstr e.reason)]))),
    ("stats", .vobj
      [("total_input", .vnum o.stats.total_input),
       ("to_insert", .vnum o.stats.to_insert),
       ("to_update", .vnum o.stats.to_update),
       ("duplicates", .vnum o.stats.duplicates)])]

/-- JSON encoding of a Step7Output. -/
def encStep7 (o : Step7Output) : Value :=
  .vobj [("inserted_ids", .varr (o.inserted_ids.map .vnum)),
    ("updated_ids", .varr (o.updated_ids.map .vnum)),
    ("job_stats", .vobj
      [("records_created", .vnum o.job_stats.records_created),
       ("records_updated", .vnum o.job_stats.records_updated),
       ("records_skipped", .vnum o.job_stats.records_skipped)])]

/-- JSON encoding of a Step8Output. -/
def encStep8 (o : Step8Output) : Value :=
  .vobj [("queued_count", .vnum o.queued_count),
    ("already_queued", .vnum o.already_queued),
    ("queue_positions", .varr (o.queue_positions.map (fun p =>
      .vobj [("researcher_id", .vnum p.1), ("position", .vnum p.2)])))]

/-! ## runPipeline (runner.ts)

Content fetching, dynamic-content resolution, CSS-selector extraction and
text normalization are external collaborators per the specification;
steps 2 and 3 are the literal placeholders of the source and the step4fn
and step5fn parameters supply the extraction and normalization outcomes.
All modelled stages are total, so the embedding covers exactly the runs
in which no stage throws (the catch-all handler of the source is not
exercised); the initial directory lookup failure, which throws before the
try block, is the error case of the result.  jobId is the uuid the runner
draws; jobRowId is the distinct uuid jobsRepository.create draws for the
scrape_jobs row; now stands in for wall-clock timestamps; durations are
reported as 0. -/
def runPipeline (step4fn : Step4Input → Step4Output)
    (step5fn : Step5Input → Step5Output)
    (hostname : String → Option String)
    (jobId jobRowId now : String)
    (db0 : DB) (directoryId : ℤ) (options : PipelineOptions) :
    DB × TrackState × Except String ScrapeResult :=
  match dirFindById db0 directoryId with
  | none => (db0, initTrack jobId,
      .error ("Directory not found: " ++ toString directoryId))
  | some directory =>
    let db := jobsCreate db0 jobRowId directoryId
      (match options.mode with | .test => "test" | .full => "full")
    let ts := initTrack jobId
    let db := jobsUpdateStatus db jobId "running" none
    -- Step 1: Load Config (built inline by the runner)
    let step1Output : Step1Output :=
      { directory := directory
        url := directory.directory_url
        scrape_method := directory.scrape_method
        selectors := (directory.scrape_config.bind (fun c => c.selectors)).getD []
        load_more_config :=
          match directory.scrape_config.bind (fun c => c.load_more_selector) with
          | some sel =>
            if sel.isEmpty then none
            else some { selector := sel, max_clicks := 50,
                        wait_between_clicks_ms := 1000 }
          | none => none
        scroll_config := directory.scrape_config.bind (fun c => c.scroll_config)
        use_step0_html := false }
    let s1 := runStepOk encStep1 jobId db ts "step1" (fun db => (db, step1Output))
    let db := s1.1
    let ts := s1.2.1
    if options.stopAfterStep == some "step1" then
      (db, ts, .ok (createResult jobId 0 [] 0 0 0))
    else
    -- Step 2: Fetch Content (placeholder in the source)
    let step2Output : Step2Output :=
      { html := "<html><body>Placeholder content</body></html>"
        links := [], fetch_time_ms := 0, from_cache := false }
    let s2 := runStepOk encStep2 jobId db ts "step2" (fun db => (db, step2Output))
    let db := s2.1
    let ts := s2.2.1
    if options.stopAfterStep == some "step2" then
      (db, ts, .ok (createResult jobId 0 [] 0 0 0))
    else
    -- Step 3: Handle Dynamic Content (passthrough in the source)
    let step3Output : Step3Output :=
      { final_html := step2Output.html, clicks_performed := 0,
        scroll_distance := 0, screenshots := [], dynamic_content_found := false }
    let s3 := runStepOk encStep3 jobId db ts "step3" (fun db => (db, step3Output))
    let db := s3.1
    let ts := s3.2.1
    if options.stopAfterStep == some "step3" then
      (db, ts, .ok (createResult jobId 0 [] 0 0 0))
    else
    -- Step 4: Extract Cards
    let step4Output := step4fn
      { html := step3Output.final_html, selectors := step1Output.selectors }
    let s4 := runStepOk encStep4 jobId db ts "step4" (fun db => (db, step4Output))
    let db := s4.1
    let ts := s4.2.1
    if options.stopAfterStep == some "step4" then
      (db, ts, .ok (createResult jobId 0 [] step4Output.raw_cards.length 0 0))
    else
    -- Step 5: Parse and Normalize
    let step5Output := step5fn
      { raw_cards := step4Output.raw_cards, university := directory.university,
        department := directory.department }
    let s5 := runStepOk encStep5 jobId db ts "step5" (fun db => (db, step5Output))
    let db := s5.1
    let ts := s5.2.1
    let errors : List String :=
      if step5Output.parse_errors.length > 0 then
        [toString step5Output.parse_errors.length ++ " parse errors"]
      else []
    if options.stopAfterStep == some "step5" then
      (db, ts, .ok (createResult jobId 0 errors step5Output.researchers.length 0 0))
    else
    -- Step 6: Deduplicate (reads the researcher store)
    let s6 := runStepOk encStep6 jobId db ts "step6" (fun db =>
      (db, deduplicate hostname db.researchers
        { researchers := step5Output.researchers, directory_id := directoryId }))
    let db := s6.1
    let ts := s6.2.1
    let step6Output := s6.2.2
    if options.stopAfterStep == some "step6" then
      (db, ts, .ok (createResult jobId 0 errors step5Output.researchers.length
        step6Output.stats.to_insert step6Output.stats.to_update))
    else
    -- Step 7: Persist (skip in dry run; options.dryRun truthy means true)
    let s7 : DB × TrackState × Step7Output :=
      match options.dryRun with
      | some true =>
        (db, ts,
         { inserted_ids := [], updated_ids := [],
           job_stats := { records_created := 0, records_updated := 0,
                          records_skipped := step6Output.stats.duplicates } })
      | _ =>
        runStepOk encStep7 jobId db ts "step7" (fun db =>
          persistStep now db
            { to_insert := step6Output.to_insert,
              to_update := step6Output.to_update,
              job_id := jobId, directory_id := directoryId })
    let db := s7.1
    let ts := s7.2.1
    let step7Output := s7.2.2
    if options.stopAfterStep == some "step7" then
      (db, ts, .ok (createResult jobId 0 errors step5Output.researchers.length
        step7Output.job_stats.records_created step7Output.job_stats.records_updated))
    else
    -- Step 8: Queue for Enrichment
    let allIds := step7Output.inserted_ids ++ step7Output.updated_ids
    let dryRunTruthy := options.dryRun.getD false
    let s8 : DB × TrackState × Step8Output :=
      if allIds.length > 0 && !dryRunTruthy then
        runStepOk encStep8 jobId db ts "step8" (fun db =>
          queueForEnrichment db { researcher_ids := allIds, priority := some 5 })
      else
        (db, ts, { queued_count := 0, already_queued := 0, queue_positions := [] })
    let db := s8.1
    let ts := s8.2.1
    -- Update directory last scraped
    let db := if !dryRunTruthy then
        dirUpdateLastScraped db directoryId (step5Output.researchers.length : ℚ)
      else db
    -- Finalize job
    let db := jobsUpdateStatus db jobId "success" none
    let ts := finalizeTrack jobId ts
    (db, ts, .ok (createResult jobId 0 errors step5Output.researchers.length
      step7Output.job_stats.records_created step7Output.job_stats.records_updated))

/-! ## Concrete instances used by the verification theorems below -/

/-- A hostname parser that always fails (every new URL call throws). -/
def hostNone : String → Option String := fun _ => none

/-- An identity-like pure stage function (stands for any pure stage). -/
def c1Stage : Value → Except String Value := fun v => .ok v

/-- A concrete non-empty stage input. -/
def c1Actual : Value := .vstr "actual input html"

/-- One tracked execution of the stage c1Stage on the input c1Actual,
through the runner's tracking wrapper. -/
def c1Run : Unit × TrackState × Except String Value :=
  runStepWithTracking (fun v => v) "job1" (fun u _ => u) () (initTrack "job1")
    "step4" (fun u => (u, c1Stage c1Actual))

/-- A concrete directory row. -/
def pipeDir : Directory where
  id := 1
  university := "X"
  department := "CS"
  directory_url := "http://x.example/faculty"
  scrape_method := "playwright"
  scrape_config := none
  is_active := true
  records_last_scrape := 0

/-- A store holding only that directory: no researchers, empty queue. -/
def pipeDB : DB := { emptyDB with directories := [pipeDir] }

/-- One extracted researcher card. -/
def pipeCard : RawCard where
  index := 0
  outer_html := "<div class=card>"
  name_text := some "Jane Doe"
  title_text := none
  email_text := some "jane@x.edu"
  phone_text := none
  office_text := none
  website_url := none
  photo_url := none
  research_areas_text := none
  profile_link := none

/-- An extraction outcome producing that one card. -/
def pipeExtract : Step4Input → Step4Output := fun _ =>
  { raw_cards := [pipeCard],
    extraction_stats :=
      { total_cards := 1, cards_with_name := 1, cards_with_email := 1,
        cards_with_title := 0, cards_with_website := 0 } }

/-- The candidate the normalization stage yields for that card. -/
def pipeCand : ParsedResearcher :=
  { blankParsed with
    first_name := "Jane", last_name := "Doe", full_name := "Jane Doe",
    university := "X", department := "CS", email := some "jane@x.edu" }

/-- A normalization outcome: one candidate, no parse errors. -/
def pipeNormalize : Step5Input → Step5Output := fun _ =>
  { researchers := [pipeCand],
    parse_errors := [],
    normalization_stats :=
      { total_parsed := 1, emails_normalized := 1, names_split := 1,
        titles_standardized := 0 } }

/-- A test-mode run (mode = test, dryRun unset) over that store. -/
def c2Run : DB × TrackState × Except String ScrapeResult :=
  runPipeline pipeExtract pipeNormalize hostNone "j" "jr" "t" pipeDB 1
    { mode := .test, debug := none, stopAfterStep := none, dryRun := none }

/-- A normalization outcome in which the only card fails to parse. -/
def pipeNormalizeFails : Step5Input → Step5Output := fun _ =>
  { researchers := [],
    parse_errors :=
      [{ card_index := 0, field := "general", error := "No name found",
         raw_value := none }],
    normalization_stats :=
      { total_parsed := 0, emails_normalized := 0, names_split := 0,
        titles_standardized := 0 } }

/-- A full-mode run in which every card fails to parse but no stage
throws. -/
def c9Run : DB × TrackState × Except String ScrapeResult :=
  runPipeline pipeExtract pipeNormalizeFails hostNone "j" "jr" "t" pipeDB 1
    { mode := .full, debug := none, stopAfterStep := none, dryRun := none }

/-- Existing record with a lower h-index, per the spec scenario. -/
def c4Existing : Researcher :=
  { blankResearcher with h_index := some 25, citations_total := 100 }

/-- Enrichment bundle proposing a higher h-index and a lower citation
count. -/
def c4Enriched : EnrichedData :=
  { blankEnriched with h_index := some 30, citations_total := some 50 }

/-- Existing record with a populated biography. -/
def c5Existing : Researcher := { blankResearcher with bio := some "A" }

/-- Enrichment bundle proposing a different biography. -/
def c5Enriched : EnrichedData := { blankEnriched with bio := some "B" }

/-- The merge of the two populated, differing biographies. -/
def c5Out : StepE3Output :=
  mergeEnrichmentData "t" { existing := c5Existing, enriched := c5Enriched }

/-- Enrichment bundle carrying an h-index of zero. -/
def c8Enriched : EnrichedData := { blankEnriched with h_index := some 0 }

/-- Merging h-index 0 into a record with no h-index: the merged result
carries h_index = 0. -/
def c8Out : StepE3Output :=
  mergeEnrichmentData "t" { existing := blankResearcher, enriched := c8Enriched }

/-- A stored canonical record with a positive identity and an email. -/
def c3Stored : Researcher :=
  { blankResearcher with
    id := 7, full_name := "Jane Doe", email := some "jane@x.edu" }

/-- A candidate whose email matches the stored record exactly. -/
def c3Cand : ParsedResearcher :=
  { blankParsed with full_name := "Jane Doe", email := some "jane@x.edu" }

/-- The condition named by the specification for an email-matched
candidate: at least one of title, email, phone, office, website is
populated and differs from the stored value, or the candidate introduces
at least one research-area tag not already present. -/
def candidateBringsNewData (r : ParsedResearcher) (x : Researcher) : Prop :=
  (∃ t, r.title = some t ∧ t ≠ "" ∧ x.title ≠ some t) ∨
  (∃ e, r.email = some e ∧ e ≠ "" ∧ x.email ≠ some e) ∨
  (∃ p, r.phone = some p ∧ p ≠ "" ∧ x.phone ≠ some p) ∨
  (∃ o, r.office = some o ∧ o ≠ "" ∧ x.office ≠ some o) ∨
  (∃ w, r.website = some w ∧ w ≠ "" ∧ x.website ≠ some w) ∨
  (∃ areas, r.research_areas = some areas ∧ ∃ a ∈ areas, a ∉ x.research_areas.getD [])

/-- A stored record sharing only the composite name+university key with
incoming candidates, title "Professor". -/
def c6Existing : Researcher :=
  { blankResearcher with
    id := 9, full_name := "Jane Doe", university := some "X",
    department := some "CS", title := some "Professor" }

/-- A candidate with no optional signals at all. -/
def c6Weak : ParsedResearcher :=
  { blankParsed with
    full_name := "Jane Doe", university := "X", department := "CS" }

/-- The same candidate with an exactly matching title. -/
def c6Strong : ParsedResearcher := { c6Weak with title := some "Professor" }

/-! ## Helper lemmas for the merge engine -/

theorem ratTruthy_ite {α : Sort u} (o : Option ℚ) (a b : α) :
    (if ratTruthy o then a else b) = (if o.getD 0 ≠ 0 then a else b) := by
  cases o with
  | none => simp [ratTruthy]
  | some q =>
    by_cases h : q = 0 <;> simp [ratTruthy, h]

theorem length_pos_ite {β : Type v} [DecidableEq β] {α : Sort u} (l : List β) (a b : α) :
    (if l.length > 0 then a else b) = (if l ≠ [] then a else b) := by
  cases l <;> simp

theorem mergeHIndex_fields (ex : Researcher) (en : EnrichedData) :
    ∀ c ∈ (mergeHIndex ex en).1, c.field = "h_index" := by
  intro c hc
  simp only [mergeHIndex] at hc
  split at hc
  · split at hc
    · split at hc
      · simp at hc
        rw [hc]
      · simp at hc
    · simp at hc
  · simp at hc

theorem mergeCitations_fields (ex : Researcher) (en : EnrichedData) :
    ∀ c ∈ (mergeCitations ex en).1, c.field = "citations_total" := by
  intro c hc
  simp only [mergeCitations] at hc
  split at hc
  · split at hc
    · simp at hc
      rw [hc]
    · simp at hc
  · simp at hc

theorem mergeAreas_fields (ex : Researcher) (en : EnrichedData) :
    ∀ c ∈ (mergeAreas ex en).1, c.field = "research_areas" := by
  intro c hc
  simp only [mergeAreas] at hc
  split at hc
  · split at hc
    · split at hc
      · simp at hc
        rw [hc]
      · simp at hc
    · simp at hc
  · simp at hc

theorem mergeEnrichmentData_conflicts (now : String) (input : StepE3Input) :
    (mergeEnrichmentData now input).conflicts =
      (mergeHIndex input.existing input.enriched).1 ++
      (mergeCitations input.existing input.enriched).1 ++
      (mergeAreas input.existing input.enriched).1 := rfl

theorem mergeEnrichmentData_merged_h (now : String) (input : StepE3Input) :
    (mergeEnrichmentData now input).merged.h_index =
      (mergeHIndex input.existing input.enriched).2 := rfl

theorem mergeEnrichmentData_merged_c (now : String) (input : StepE3Input) :
    (mergeEnrichmentData now input).merged.citations_total =
      (mergeCitations input.existing input.enriched).2 := rfl

/-! ## Claim C5 -/

/-- C5 counterexample: existing biography "A" and proposed biography "B"
are both populated and differ, yet the merge emits no conflict at all for
the field (the claim requires an informational keep_existing conflict);
the field is, as claimed, absent from the partial update. -/
theorem C5_counterexample_no_bio_conflict :
    c5Out.merged.bio = none ∧ c5Out.conflicts = [] ∧
    strTruthy c5Existing.bio = true ∧ strTruthy c5Enriched.bio = true ∧
    c5Existing.bio ≠ c5Enriched.bio :=
  ⟨rfl, rfl, rfl, rfl, by decide⟩

/-- C5 (amended): mergeEnrichmentData adopts a scalar descriptive field
(bio, google_scholar_url, dblp_url, semantic_scholar_id, orcid) into the
partial update exactly when the proposed value is truthy and the existing
field is empty, never overwrites a populated field (the field is then
absent from the partial update), and emits no Merge Conflict for any
descriptive field in any case: every conflict concerns h_index,
citations_total or research_areas. -/
theorem C5_descriptive_fields_first_write_wins (now : String) (input : StepE3Input) :
    ((mergeEnrichmentData now input).merged.bio =
      if strTruthy input.enriched.bio && !strTruthy input.existing.bio
      then input.enriched.bio else none) ∧
    ((mergeEnrichmentData now input).merged.google_scholar_url =
      if strTruthy input.enriched.google_scholar_url &&
          !strTruthy input.existing.google_scholar_url
      then input.enriched.google_scholar_url else none) ∧
    ((mergeEnrichmentData now input).merged.dblp_url =
      if strTruthy input.enriched.dblp_url && !strTruthy input.existing.dblp_url
      then input.enriched.dblp_url else none) ∧
    ((mergeEnrichmentData now input).merged.semantic_scholar_id =
      if strTruthy input.enriched.semantic_scholar_id &&
          !strTruthy input.existing.semantic_scholar_id
      then input.enriched.semantic_scholar_id else none) ∧
    ((mergeEnrichmentData now input).merged.orcid =
      if strTruthy input.enriched.orcid && !strTruthy input.existing.orcid
      then input.enriched.orcid else none) ∧
    ((mergeEnrichmentData now input).conflicts.all (fun c =>
      c.field == "h_index" || c.field == "citations_total" ||
      c.field == "research_areas") = true) := by
  refine ⟨rfl, rfl, rfl, rfl, rfl, ?_⟩
  rw [List.all_eq_true]
  intro c hc
  rw [mergeEnrichmentData_conflicts] at hc
  rcases List.mem_append.mp hc with hc1 | hc2
  · rcases List.mem_append.mp hc1 with hh | hcit
    · rw [mergeHIndex_fields input.existing input.enriched c hh]
      decide
    · rw [mergeCitations_fields input.existing input.enriched c hcit]
      decide
  · rw [mergeAreas_fields input.existing input.enriched c hc2]
    decide

/-! ## Claim C8 -/

/-- C8 counterexample: merging an enrichment bundle whose h-index is 0
into a record with no h-index puts h_index = 0 into the merged result; a
citation index is then present in the merged result, yet the confidence
is 0.5, not the 0.6 the claim computes (the source tests JS truthiness,
and 0 is falsy). -/
theorem C8_counterexample_zero_h_index :
    c8Out.merged.h_index = some 0 ∧ c8Out.publications_to_add = [] ∧
    c8Out.merged.citations_total = none ∧ c8Out.merged.research_areas = none ∧
    c8Out.confidence = 1/2 ∧ c8Out.confidence ≠ 1/2 + 1/10 := by
  refine ⟨rfl, rfl, rfl, rfl, ?_, ?_⟩
  · show min ((1/2 : ℚ) + 0 + 0 + 0 + 0) 1 = 1/2
    norm_num
  · show min ((1/2 : ℚ) + 0 + 0 + 0 + 0) 1 ≠ 1/2 + 1/10
    norm_num

/-- C8 (amended): the merge confidence equals 0.5, plus 0.1 when the
merged result carries a non-zero citation index, plus 0.1 when it carries
a non-zero citation count, plus 0.1 when it carries research areas, plus
0.2 when at least one publication was proposed, capped at 1.0. -/
theorem C8_confidence_formula (now : String) (input : StepE3Input) :
    (mergeEnrichmentData now input).confidence =
      min ((1/2 : ℚ)
        + (if (mergeEnrichmentData now input).merged.h_index.getD 0 ≠ 0
           then (1/10 : ℚ) else 0)
        + (if (mergeEnrichmentData now input).merged.citations_total.getD 0 ≠ 0
           then (1/10 : ℚ) else 0)
        + (if (mergeEnrichmentData now input).merged.research_areas.isSome
           then (1/10 : ℚ) else 0)
        + (if (mergeEnrichmentData now input).publications_to_add ≠ []
           then (1/5 : ℚ) else 0)) 1 := by
  conv_lhs => rw [mergeEnrichmentData]
  simp only [ratTruthy_ite, length_pos_ite]
  rfl

/-! ## Claim C4 -/

theorem conflicts_filter_h (now : String) (input : StepE3Input) :
    (mergeEnrichmentData now input).conflicts.filter (fun c => c.field == "h_index") =
      (mergeHIndex input.existing input.enriched).1.filter (fun c => c.field == "h_index") := by
  rw [mergeEnrichmentData_conflicts, List.filter_append, List.filter_append]
  have h2 : (mergeCitations input.existing input.enriched).1.filter
      (fun c => c.field == "h_index") = [] := by
    rw [List.filter_eq_nil_iff]
    intro c hc
    rw [mergeCitations_fields input.existing input.enriched c hc]
    decide
  have h3 : (mergeAreas input.existing input.enriched).1.filter
      (fun c => c.field == "h_index") = [] := by
    rw [List.filter_eq_nil_iff]
    intro c hc
    rw [mergeAreas_fields input.existing input.enriched c hc]
    decide
  rw [h2, h3, List.append_nil, List.append_nil]

theorem conflicts_filter_c (now : String) (input : StepE3Input) :
    (mergeEnrichmentData now input).conflicts.filter
        (fun c => c.field == "citations_total") =
      (mergeCitations input.existing input.enriched).1.filter
        (fun c => c.field == "citations_total") := by
  rw [mergeEnrichmentData_conflicts, List.filter_append, List.filter_append]
  have h1 : (mergeHIndex input.existing input.enriched).1.filter
      (fun c => c.field == "citations_total") = [] := by
    rw [List.filter_eq_nil_iff]
    intro c hc
    rw [mergeHIndex_fields input.existing input.enriched c hc]
    decide
  have h3 : (mergeAreas input.existing input.enriched).1.filter
      (fun c => c.field == "citations_total") = [] := by
    rw [List.filter_eq_nil_iff]
    intro c hc
    rw [mergeAreas_fields input.existing input.enriched c hc]
    decide
  rw [h1, h3, List.append_nil, List.nil_append]

/-- C4: for each scalar quality metric the merge takes the numerically
larger value: when both values are present and differ it emits exactly
one Merge Conflict for that field, resolved use_new when the new value is
larger and keep_existing otherwise, and the effective merged value is the
maximum; when the values agree no conflict is emitted and nothing is
adopted; when the existing h-index is absent the new value is adopted
with no conflict entry (existing citations_total is non-optional in the
source types, so the absent case does not arise for it). -/
theorem C4_scalar_metric_merge (now : String) (input : StepE3Input) :
    (∀ oldH newH : ℚ, input.existing.h_index = some oldH →
      input.enriched.h_index = some newH → oldH ≠ newH →
      ((mergeEnrichmentData now input).conflicts.filter
          (fun c => c.field == "h_index") =
        [{ field := "h_index", existing_value := .vnum oldH,
           new_value := .vnum newH,
           resolution := if oldH < newH then .use_new else .keep_existing }] ∧
       (mergeEnrichmentData now input).merged.h_index.getD oldH = max oldH newH)) ∧
    (∀ v : ℚ, input.existing.h_index = some v → input.enriched.h_index = some v →
      (mergeEnrichmentData now input).conflicts.filter
        (fun c => c.field == "h_index") = [] ∧
      (mergeEnrichmentData now input).merged.h_index = none) ∧
    (∀ newH : ℚ, input.existing.h_index = none →
      input.enriched.h_index = some newH →
      (mergeEnrichmentData now input).conflicts.filter
        (fun c => c.field == "h_index") = [] ∧
      (mergeEnrichmentData now input).merged.h_index = some newH) ∧
    (∀ newC : ℚ, input.enriched.citations_total = some newC →
      input.existing.citations_total ≠ newC →
      ((mergeEnrichmentData now input).conflicts.filter
          (fun c => c.field == "citations_total") =
        [{ field := "citations_total",
           existing_value := .vnum input.existing.citations_total,
           new_value := .vnum newC,
           resolution := if input.existing.citations_total < newC
             then .use_new else .keep_existing }] ∧
       (mergeEnrichmentData now input).merged.citations_total.getD
           input.existing.citations_total
         = max input.existing.citations_total newC)) ∧
    (∀ v : ℚ, input.enriched.citations_total = some v →
      input.existing.citations_total = v →
      (mergeEnrichmentData now input).conflicts.filter
        (fun c => c.field == "citations_total") = [] ∧
      (mergeEnrichmentData now input).merged.citations_total = none) := by
  refine ⟨?_, ?_, ?_, ?_, ?_⟩
  · intro oldH newH hex hen hne
    rw [conflicts_filter_h, mergeEnrichmentData_merged_h]
    have hm : mergeHIndex input.existing input.enriched =
        ([{ field := "h_index", existing_value := .vnum oldH,
            new_value := .vnum newH,
            resolution := if oldH < newH then .use_new else .keep_existing }],
         if oldH < newH then some newH else none) := by
      simp only [mergeHIndex, hex, hen, if_pos hne]
      simp [hne, gt_iff_lt]
    rw [hm]
    constructor
    · simp
    · by_cases hlt : oldH < newH
      · simp [hlt, max_eq_right (le_of_lt hlt)]
      · have hge : newH ≤ oldH := le_of_not_lt hlt
        simp [hlt, max_eq_left hge]
  · intro v hex hen
    rw [conflicts_filter_h, mergeEnrichmentData_merged_h]
    simp [mergeHIndex, hex, hen]
  · intro newH hex hen
    rw [conflicts_filter_h, mergeEnrichmentData_merged_h]
    simp [mergeHIndex, hex, hen]
  · intro newC hen hne
    rw [conflicts_filter_c, mergeEnrichmentData_merged_c]
    have hm : mergeCitations input.existing input.enriched =
        ([{ field := "citations_total",
            existing_value := .vnum input.existing.citations_total,
            new_value := .vnum newC,
            resolution := if input.existing.citations_total < newC
              then .use_new else .keep_existing }],
         if input.existing.citations_total < newC then some newC else none) := by
      simp only [mergeCitations, hen, if_pos hne]
      simp [hne, gt_iff_lt]
    rw [hm]
    constructor
    · simp
    · by_cases hlt : input.existing.citations_total < newC
      · simp [hlt, max_eq_right (le_of_lt hlt)]
      · have hge : newC ≤ input.existing.citations_total := le_of_not_lt hlt
        simp [hlt, max_eq_left hge]
  · intro v hen hex
    rw [conflicts_filter_c, mergeEnrichmentData_merged_c]
    simp [mergeCitations, hen, hex]

/-- C4 witness: the spec scenario, citation index 30 merged into a record
with citation index 25 plus a citation count 50 merged over 100. -/
theorem C4_scalar_metric_merge_witness :
    ((25 : ℚ) ≠ 30 ∧
     ((mergeEnrichmentData "t" { existing := c4Existing, enriched := c4Enriched }).conflicts.filter
         (fun c => c.field == "h_index") =
       [{ field := "h_index", existing_value := .vnum 25, new_value := .vnum 30,
          resolution := if (25 : ℚ) < 30 then .use_new else .keep_existing }] ∧
      (mergeEnrichmentData "t" { existing := c4Existing, enriched := c4Enriched }).merged.h_index.getD 25
        = max 25 30)) ∧
    ((100 : ℚ) ≠ 50 ∧
     ((mergeEnrichmentData "t" { existing := c4Existing, enriched := c4Enriched }).conflicts.filter
         (fun c => c.field == "citations_total") =
       [{ field := "citations_total", existing_value := .vnum 100,
          new_value := .vnum 50,
          resolution := if (100 : ℚ) < 50 then .use_new else .keep_existing }] ∧
      (mergeEnrichmentData "t" { existing := c4Existing, enriched := c4Enriched }).merged.citations_total.getD 100
        = max 100 50)) :=
  ⟨⟨by norm_num,
    (C4_scalar_metric_merge "t" { existing := c4Existing, enriched := c4Enriched }).1
      25 30 rfl rfl (by norm_num)⟩,
   ⟨by norm_num,
    (C4_scalar_metric_merge "t" { existing := c4Existing, enriched := c4Enriched }).2.2.2.1
      50 rfl (by norm_num [c4Existing])⟩⟩

/-! ## Claim C1 -/

theorem string_append_right_ne (s : String) {a b : String} (h : a ≠ b) :
    s ++ a ≠ s ++ b := by
  intro hc
  have hd := congrArg String.data hc
  simp only [String.data_append] at hd
  exact h (String.ext (List.append_cancel_left hd))

/-- C1: the tracking wrapper hands the Step Recorder the literal empty
object as the stage input, not the input the stage function actually runs
on — for every stage execution through runStepWithTracking the persisted
input artifact is the empty object; on the concrete run c1Run (stage
c1Stage on actual input c1Actual) the persisted input differs from the
actual input and re-invoking the stage on the loaded input does not
reproduce the persisted output, so the round-trip the claim states
fails. -/
theorem C1_recorder_persists_empty_input :
    (∀ (σ α : Type) (enc : α → Value) (jobId : String)
        (upd : σ → String → σ) (st : σ) (ts : TrackState) (stepName : String)
        (fn : σ → σ × Except String α),
      loadStepInput (runStepWithTracking enc jobId upd st ts stepName fn).2.1
        stepName = some (.vobj [])) ∧
    loadStepInput c1Run.2.1 "step4" = some (.vobj []) ∧
    loadStepOutput c1Run.2.1 "step4" = some c1Actual ∧
    Value.vobj [] ≠ c1Actual ∧
    c1Stage (Value.vobj []) ≠ Except.ok c1Actual := by
  refine ⟨?_, rfl, rfl, ?_, ?_⟩
  · intro σ α enc jobId upd st ts stepName fn
    have hout : ((stepName ++ "_output.json") == (stepName ++ "_input.json")) = false := by
      rw [beq_eq_false_iff_ne]
      exact string_append_right_ne stepName (by decide)
    have herr : ((stepName ++ "_error.json") == (stepName ++ "_input.json")) = false := by
      rw [beq_eq_false_iff_ne]
      exact string_append_right_ne stepName (by decide)
    simp only [runStepWithTracking]
    rcases hfn : fn (upd st stepName) with ⟨st1, r⟩
    rcases r with e | a
    · simp [recordStepError, recordStepStart, loadStepInput, readDebugFile,
        writeDebugFile, hout, herr]
    · simp [recordStepEnd, recordStepStart, loadStepInput, readDebugFile,
        writeDebugFile, hout, herr]
  · intro h
    rw [show c1Actual = Value.vstr "actual input html" from rfl] at h
    exact Value.noConfusion h
  · intro h
    rw [show c1Stage (Value.vobj []) = Except.ok (Value.vobj []) from rfl,
      show c1Actual = Value.vstr "actual input html" from rfl] at h
    injection h with h1
    exact Value.noConfusion h1

/-! ## Claim C2 -/

/-- C2: a run of runPipeline with mode = test and dryRun unset writes to
the persistent store.  On the concrete test-mode run c2Run over a store
with no researchers and an empty enrichment queue, the pipeline persists
the extracted researcher (id 1) and queues it for enrichment, and reports
success — mode is consulted only for the job row's scrape_type, no sample
cap exists, and only dryRun suppresses the writes. -/
theorem C2_test_mode_writes_store :
    c2Run.1.researchers.map (fun r => r.id) = [1] ∧
    pipeDB.researchers = [] ∧
    c2Run.1.queue.map (fun q => q.researcher_id) = [1] ∧
    pipeDB.queue = [] ∧
    c2Run.2.2 = .ok (createResult "j" 0 [] 1 1 0) :=
  ⟨rfl, rfl, rfl, rfl, rfl⟩

/-! ## Claim C9 -/

/-- C9 counterexample: a run in which no stage throws, the single card
fails to parse (one per-record parse error, zero records found) — the
headline result of runPipeline is failed, not the success the claim
states. -/
theorem C9_counterexample_parse_errors_flip_status :
    c9Run.2.2 = .ok (createResult "j" 0 ["1 parse errors"] 0 0 0) ∧
    (createResult "j" 0 ["1 parse errors"] 0 0 0).status = "failed" ∧
    (createResult "j" 0 ["1 parse errors"] 0 0 0).status ≠ "success" :=
  ⟨rfl, rfl, by decide⟩

/-- C9 (amended): the headline status is success iff no errors were
collected or at least one record was found; per-record parse errors flip
the headline to failed exactly when zero records were found. -/
theorem C9_headline_status (jobId : String) (dur : ℚ) (errors : List String)
    (found created updated : ℕ) :
    ((createResult jobId dur errors found created updated).status = "success" ↔
      errors = [] ∨ found ≠ 0) ∧
    ((createResult jobId dur errors found created updated).status = "failed" ↔
      errors ≠ [] ∧ found = 0) := by
  rcases errors with _ | ⟨e, es⟩ <;> by_cases hf : found = 0 <;>
    simp [createResult, hf]

/-! ## Claim C3 -/

theorem filter_singleton_find? {α : Type u} (p : α → Bool) :
    ∀ (l : List α) (x : α), l.filter p = [x] → l.find? p = some x := by
  intro l
  induction l with
  | nil => intro x h; simp at h
  | cons a t ih =>
    intro x h
    by_cases hp : p a
    · rw [List.filter_cons_of_pos hp] at h
      injection h with h1 h2
      rw [List.find?_cons_of_pos _ hp, h1]
    · rw [List.filter_cons_of_neg hp] at h
      rw [List.find?_cons_of_neg _ hp]
      exact ih x h

theorem strFieldChanged_iff (inc ex : Option String) :
    strFieldChanged inc ex = true ↔ ∃ t, inc = some t ∧ t ≠ "" ∧ ex ≠ some t := by
  cases inc with
  | none => simp [strFieldChanged, strTruthy]
  | some s =>
    simp only [strFieldChanged, strTruthy, Bool.and_eq_true, Bool.not_eq_true',
      bne_iff_ne, Option.some.injEq]
    constructor
    · rintro ⟨h1, h2⟩
      have hs : s ≠ "" := by
        intro hs
        rw [hs] at h1
        exact absurd h1 (by decide)
      exact ⟨s, rfl, hs, fun hx => h2 hx.symm⟩
    · rintro ⟨t, ht, h1, h2⟩
      subst ht
      have hs : s.isEmpty = false := by
        rw [Bool.eq_false_iff, Ne, String.isEmpty_iff]
        exact h1
      exact ⟨hs, fun hx => h2 hx.symm⟩

theorem areasChanged_iff (r : ParsedResearcher) (x : Researcher) :
    ((match r.research_areas with
      | some areas =>
        decide (areas.length > 0) &&
          !(areas.filter (fun a => !(x.research_areas.getD []).contains a)).isEmpty
      | none => false) = true) ↔
      ∃ areas, r.research_areas = some areas ∧
        ∃ a ∈ areas, a ∉ x.research_areas.getD [] := by
  cases hr : r.research_areas with
  | none => simp
  | some areas =>
    simp only [Option.some.injEq, Bool.and_eq_true, Bool.not_eq_true',
      decide_eq_true_eq]
    constructor
    · rintro ⟨hlen, hne⟩
      refine ⟨areas, rfl, ?_⟩
      have : areas.filter (fun a => !(x.research_areas.getD []).contains a) ≠ [] := by
        simpa [List.isEmpty_iff] using hne
      rcases List.exists_mem_of_ne_nil _ this with ⟨a, ha⟩
      rcases List.mem_filter.mp ha with ⟨hmem, hpa⟩
      refine ⟨a, hmem, ?_⟩
      simpa [List.contains, List.elem_iff] using hpa
    · rintro ⟨areas1, heq, a, hmem, hnot⟩
      subst heq
      have hpa : (!(x.research_areas.getD []).contains a) = true := by
        simpa [List.contains, List.elem_iff] using hnot
      constructor
      · exact List.length_pos.mpr (List.ne_nil_of_mem hmem)
      · rw [List.isEmpty_eq_false_iff_exists_mem]
        exact ⟨a, List.mem_filter.mpr ⟨hmem, hpa⟩⟩

theorem checkForChanges_iff (r : ParsedResearcher) (x : Researcher) :
    checkForChanges r x = true ↔ candidateBringsNewData r x := by
  simp only [checkForChanges, candidateBringsNewData, Bool.or_eq_true,
    strFieldChanged_iff]
  rw [areasChanged_iff r x]
  simp only [or_assoc]

/-- C3: a candidate with a populated email for which the store holds
exactly one canonical record with that email is decided against that
record with confidence 1.0 and never as insert; the decision is update
exactly when one of title, email, phone, office, website is populated and
differs from the stored value or the candidate brings a new research-area
tag, and skip otherwise. -/
theorem C3_email_match_decision (hostname : String → Option String)
    (store : List Researcher) (r : ParsedResearcher) (em : String)
    (x : Researcher) (dirId : ℤ)
    (hmail : r.email = some em) (hne : em ≠ "")
    (huniq : store.filter (fun y => y.email == some (lowerString em)) = [x]) :
    ((checkDuplicate hostname store r dirId).existing_id = some x.id) ∧
    ((checkDuplicate hostname store r dirId).confidence = 1) ∧
    ((checkDuplicate hostname store r dirId).action ≠ .insert) ∧
    ((checkDuplicate hostname store r dirId).action = .update ↔
      candidateBringsNewData r x) ∧
    ((checkDuplicate hostname store r dirId).action = .skip ↔
      ¬ candidateBringsNewData r x) := by
  have hfind : findByEmail store em = some x :=
    filter_singleton_find? _ store x huniq
  have hempty : em.isEmpty = false := by
    rw [Bool.eq_false_iff]
    rw [Ne, String.isEmpty_iff]
    exact hne
  by_cases hc : checkForChanges r x = true
  · have hprop : candidateBringsNewData r x := (checkForChanges_iff r x).mp hc
    have hd : checkDuplicate hostname store r dirId =
        { researcher := r, action := .update, existing_id := some x.id,
          match_reason := some "Email match with data changes",
          confidence := 1 } := by
      simp [checkDuplicate, emailCheck, hmail, hempty, hfind, hc]
    rw [hd]
    refine ⟨rfl, rfl, by simp, by simp [hprop], by simp [hprop]⟩
  · have hcf : checkForChanges r x = false := Bool.eq_false_iff.mpr hc
    have hprop : ¬ candidateBringsNewData r x :=
      fun h => hc ((checkForChanges_iff r x).mpr h)
    have hd : checkDuplicate hostname store r dirId =
        { researcher := r, action := .skip, existing_id := some x.id,
          match_reason := some "Exact email match", confidence := 1 } := by
      simp [checkDuplicate, emailCheck, hmail, hempty, hfind, hcf]
    rw [hd]
    refine ⟨rfl, rfl, by simp, by simp [hprop], by simp [hprop]⟩

/-- C3 witness: a stored record (id 7) with email jane at x.edu and a
candidate re-submitting exactly that email. -/
theorem C3_email_match_decision_witness :
    ((checkDuplicate hostNone [c3Stored] c3Cand 0).existing_id = some c3Stored.id) ∧
    ((checkDuplicate hostNone [c3Stored] c3Cand 0).confidence = 1) ∧
    ((checkDuplicate hostNone [c3Stored] c3Cand 0).action ≠ .insert) ∧
    ((checkDuplicate hostNone [c3Stored] c3Cand 0).action = .update ↔
      candidateBringsNewData c3Cand c3Stored) ∧
    ((checkDuplicate hostNone [c3Stored] c3Cand 0).action = .skip ↔
      ¬ candidateBringsNewData c3Cand c3Stored) :=
  C3_email_match_decision hostNone [c3Stored] c3Cand "jane@x.edu" c3Stored 0
    rfl (by decide) (by decide)

/-! ## Claim C7 -/

theorem emailCheck_eq_none (store : List Researcher) (r : ParsedResearcher)
    (h : ∀ em, r.email = some em → em = "" ∨ findByEmail store em = none) :
    emailCheck store r = none := by
  unfold emailCheck
  rcases hre : r.email with _ | em
  · rfl
  · rcases h em hre with h0 | h0
    · subst h0
      rfl
    · by_cases he : em.isEmpty = true
      · simp [he]
      · simp only [Bool.not_eq_true] at he
        simp [he, h0]

theorem nameCheck_eq_none (hostname : String → Option String)
    (store : List Researcher) (r : ParsedResearcher)
    (h : r.university = "" ∨
      findByNameAndUniversity store r.full_name r.university r.department = none ∨
      (∃ x, findByNameAndUniversity store r.full_name r.university r.department
          = some x ∧
        calculateMatchConfidence hostname r x < 9/10)) :
    nameCheck hostname store r = none := by
  unfold nameCheck
  rcases h with h0 | h0 | ⟨x, hx, hlt⟩
  · have hu : r.university.isEmpty = true := by rw [h0]; decide
    simp [hu]
  · by_cases hu : r.university.isEmpty = true
    · simp [hu]
    · simp only [Bool.not_eq_true] at hu
      simp [hu, h0]
  · by_cases hu : r.university.isEmpty = true
    · simp [hu]
    · simp only [Bool.not_eq_true] at hu
      have hnotge : ¬ calculateMatchConfidence hostname r x ≥ 9/10 :=
        not_le.mpr hlt
      simp [hu, hx, hnotge]

/-- C7: a candidate with no usable match — the email branch yields no
match (no truthy email, or no stored record with that email) and the
composite branch yields no usable match (no truthy university, no
composite match, or a composite match scoring below the 0.9 usability
threshold) — is decided insert with confidence 1.0, and in particular is
never treated as skip. -/
theorem C7_no_usable_match_inserts (hostname : String → Option String)
    (store : List Researcher) (r : ParsedResearcher) (dirId : ℤ)
    (hemail : ∀ em, r.email = some em → em = "" ∨ findByEmail store em = none)
    (hname : r.university = "" ∨
      findByNameAndUniversity store r.full_name r.university r.department = none ∨
      (∃ x, findByNameAndUniversity store r.full_name r.university r.department
          = some x ∧
        calculateMatchConfidence hostname r x < 9/10)) :
    (checkDuplicate hostname store r dirId).action = .insert ∧
    (checkDuplicate hostname store r dirId).confidence = 1 ∧
    (checkDuplicate hostname store r dirId).existing_id = none ∧
    (checkDuplicate hostname store r dirId).action ≠ .skip := by
  have he := emailCheck_eq_none store r hemail
  have hn := nameCheck_eq_none hostname store r hname
  have hd : checkDuplicate hostname store r dirId =
      { researcher := r, action := .insert, existing_id := none,
        match_reason := none, confidence := 1 } := by
    simp [checkDuplicate, he, hn]
  rw [hd]
  exact ⟨rfl, rfl, rfl, by simp⟩

/-- C7 witness: a candidate with neither email nor university against the
empty store. -/
theorem C7_no_usable_match_inserts_witness :
    (checkDuplicate hostNone [] blankParsed 0).action = .insert ∧
    (checkDuplicate hostNone [] blankParsed 0).confidence = 1 ∧
    (checkDuplicate hostNone [] blankParsed 0).existing_id = none ∧
    (checkDuplicate hostNone [] blankParsed 0).action ≠ .skip :=
  C7_no_usable_match_inserts hostNone [] blankParsed 0
    (fun _ h => Option.noConfusion h) (Or.inl rfl)

/-! ## Claim C10 -/

theorem emailCheck_some_mem (store : List Researcher) (r : ParsedResearcher)
    (d : DedupeDecision) (h : emailCheck store r = some d) :
    ∃ x ∈ store, d.existing_id = some x.id ∧ d.action ≠ .insert := by
  unfold emailCheck at h
  split at h
  · split at h
    · exact absurd h (by simp)
    · split at h
      · split at h
        · rename_i em hne x hfind hc
          injection h with h1
          subst h1
          exact ⟨x, List.mem_of_find?_eq_some (by simpa [findByEmail] using hfind),
            rfl, by simp⟩
        · rename_i em hne x hfind hc
          injection h with h1
          subst h1
          exact ⟨x, List.mem_of_find?_eq_some (by simpa [findByEmail] using hfind),
            rfl, by simp⟩
      · exact absurd h (by simp)
  · exact absurd h (by simp)

theorem nameCheck_some_mem (hostname : String → Option String)
    (store : List Researcher) (r : ParsedResearcher)
    (d : DedupeDecision) (h : nameCheck hostname store r = some d) :
    ∃ x ∈ store, d.existing_id = some x.id ∧ d.action ≠ .insert := by
  unfold nameCheck at h
  split at h
  · exact absurd h (by simp)
  · split at h
    · split at h
      · simp only [] at h
        split at h
        · rename_i hu xopt x hfind hc hge
          injection h with h1
          subst h1
          exact ⟨x, List.mem_of_find?_eq_some
            (by simpa [findByNameAndUniversity] using hfind), rfl, by simp⟩
        · exact absurd h (by simp)
      · simp only [] at h
        split at h
        · rename_i hu xopt x hfind hc hge
          injection h with h1
          subst h1
          exact ⟨x, List.mem_of_find?_eq_some
            (by simpa [findByNameAndUniversity] using hfind), rfl, by simp⟩
        · exact absurd h (by simp)
    · exact absurd h (by simp)

theorem checkDuplicate_not_insert_mem (hostname : String → Option String)
    (store : List Researcher) (r : ParsedResearcher) (dirId : ℤ)
    (h : (checkDuplicate hostname store r dirId).action ≠ .insert) :
    ∃ x ∈ store,
      (checkDuplicate hostname store r dirId).existing_id = some x.id := by
  unfold checkDuplicate at h ⊢
  rcases he : emailCheck store r with _ | d1
  · rcases hn : nameCheck hostname store r with _ | d2
    · rw [he, hn] at h
      exact absurd rfl h
    · rcases nameCheck_some_mem hostname store r d2 hn with ⟨x, hx, hid, _⟩
      exact ⟨x, hx, hid⟩
  · rcases emailCheck_some_mem store r d1 he with ⟨x, hx, hid, _⟩
    exact ⟨x, hx, hid⟩

theorem dedupLists_perm (hostname : String → Option String)
    (store : List Researcher) (dirId : ℤ)
    (hpos : ∀ x ∈ store, 0 < x.id) :
    ∀ rs : List ParsedResearcher,
      ((dedupLists hostname store dirId rs).1 ++
        (dedupLists hostname store dirId rs).2.1.map (fun e => e.researcher) ++
        (dedupLists hostname store dirId rs).2.2.map (fun e => e.researcher)).Perm
        rs := by
  intro rs
  induction rs with
  | nil => simp [dedupLists]
  | cons r rest ih =>
    rcases hact : (checkDuplicate hostname store r dirId).action with _ | _ | _
    · -- insert
      have heq : dedupLists hostname store dirId (r :: rest) =
          (r :: (dedupLists hostname store dirId rest).1,
           (dedupLists hostname store dirId rest).2.1,
           (dedupLists hostname store dirId rest).2.2) := by
        simp only [dedupLists, dedupStep, hact]
      rw [heq]
      simp only [List.cons_append]
      exact ih.cons r
    · -- update
      have hne : (checkDuplicate hostname store r dirId).action ≠ .insert := by
        rw [hact]
        simp
      rcases checkDuplicate_not_insert_mem hostname store r dirId hne with
        ⟨x, hxmem, hid⟩
      have hxne : x.id ≠ 0 := (hpos x hxmem).ne'
      have heq : dedupLists hostname store dirId (r :: rest) =
          ((dedupLists hostname store dirId rest).1,
           ⟨r, x.id⟩ :: (dedupLists hostname store dirId rest).2.1,
           (dedupLists hostname store dirId rest).2.2) := by
        simp only [dedupLists, dedupStep, hact, hid]
        rw [if_pos hxne]
      rw [heq]
      simp only [List.map_cons]
      have hshape : (dedupLists hostname store dirId rest).1 ++
          (r :: (dedupLists hostname store dirId rest).2.1.map (fun e => e.researcher)) ++
          (dedupLists hostname store dirId rest).2.2.map (fun e => e.researcher) =
          (dedupLists hostname store dirId rest).1 ++
          r :: ((dedupLists hostname store dirId rest).2.1.map (fun e => e.researcher) ++
            (dedupLists hostname store dirId rest).2.2.map (fun e => e.researcher)) := by
        simp
      rw [hshape]
      refine List.perm_middle.trans (List.Perm.cons r ?_)
      simpa using ih
    · -- skip
      have hne : (checkDuplicate hostname store r dirId).action ≠ .insert := by
        rw [hact]
        simp
      rcases checkDuplicate_not_insert_mem hostname store r dirId hne with
        ⟨x, hxmem, hid⟩
      have hxne : x.id ≠ 0 := (hpos x hxmem).ne'
      have heq : dedupLists hostname store dirId (r :: rest) =
          ((dedupLists hostname store dirId rest).1,
           (dedupLists hostname store dirId rest).2.1,
           ⟨r, x.id, (checkDuplicate hostname store r dirId).match_reason.getD
             "Exact duplicate"⟩ :: (dedupLists hostname store dirId rest).2.2) := by
        simp only [dedupLists, dedupStep, hact, hid]
        rw [if_pos hxne]
      rw [heq]
      simp only [List.map_cons]
      exact List.perm_middle.trans (List.Perm.cons r ih)

/-- C10: deduplicate places each input candidate in exactly one of its
three output lists — their concatenation is a permutation of the input —
and the reported stats equal the list lengths with
total_input = to_insert + to_update + duplicates, provided every stored
record has a positive identity (the update and skip branches drop a
candidate only when the matched id is 0, which positive ids rule out). -/
theorem C10_dedup_partition (hostname : String → Option String)
    (store : List Researcher) (input : Step6Input)
    (hpos : ∀ x ∈ store, 0 < x.id) :
    (deduplicate hostname store input).stats.total_input =
      input.researchers.length ∧
    (deduplicate hostname store input).stats.to_insert =
      (deduplicate hostname store input).to_insert.length ∧
    (deduplicate hostname store input).stats.to_update =
      (deduplicate hostname store input).to_update.length ∧
    (deduplicate hostname store input).stats.duplicates =
      (deduplicate hostname store input).duplicates.length ∧
    ((deduplicate hostname store input).to_insert ++
      (deduplicate hostname store input).to_update.map (fun e => e.researcher) ++
      (deduplicate hostname store input).duplicates.map (fun e => e.researcher)).Perm
      input.researchers ∧
    input.researchers.length =
      (deduplicate hostname store input).to_insert.length +
      (deduplicate hostname store input).to_update.length +
      (deduplicate hostname store input).duplicates.length := by
  have hperm := dedupLists_perm hostname store input.directory_id hpos
    input.researchers
  refine ⟨rfl, rfl, rfl, rfl, hperm, ?_⟩
  have hlen := hperm.length_eq
  simp only [List.length_append, List.length_map] at hlen
  exact hlen.symm

/-- C10 witness: one candidate against a store holding one record with
positive id 7; the candidate is an exact email duplicate and lands in the
duplicates list. -/
theorem C10_dedup_partition_witness :
    (deduplicate hostNone [c3Stored] { researchers := [c3Cand], directory_id := 0 }).stats.total_input
      = [c3Cand].length ∧
    (deduplicate hostNone [c3Stored] { researchers := [c3Cand], directory_id := 0 }).stats.to_insert
      = (deduplicate hostNone [c3Stored] { researchers := [c3Cand], directory_id := 0 }).to_insert.length ∧
    (deduplicate hostNone [c3Stored] { researchers := [c3Cand], directory_id := 0 }).stats.to_update
      = (deduplicate hostNone [c3Stored] { researchers := [c3Cand], directory_id := 0 }).to_update.length ∧
    (deduplicate hostNone [c3Stored] { researchers := [c3Cand], directory_id := 0 }).stats.duplicates
      = (deduplicate hostNone [c3Stored] { researchers := [c3Cand], directory_id := 0 }).duplicates.length ∧
    ((deduplicate hostNone [c3Stored] { researchers := [c3Cand], directory_id := 0 }).to_insert ++
      (deduplicate hostNone [c3Stored] { researchers := [c3Cand], directory_id := 0 }).to_update.map (fun e => e.researcher) ++
      (deduplicate hostNone [c3Stored] { researchers := [c3Cand], directory_id := 0 }).duplicates.map (fun e => e.researcher)).Perm
      [c3Cand] ∧
    [c3Cand].length =
      (deduplicate hostNone [c3Stored] { researchers := [c3Cand], directory_id := 0 }).to_insert.length +
      (deduplicate hostNone [c3Stored] { researchers := [c3Cand], directory_id := 0 }).to_update.length +
      (deduplicate hostNone [c3Stored] { researchers := [c3Cand], directory_id := 0 }).duplicates.length :=
  C10_dedup_partition hostNone [c3Stored]
    { researchers := [c3Cand], directory_id := 0 }
    (by intro x hx; rw [List.mem_singleton] at hx; subst hx; decide)

/-! ## Claim C6 -/

/-- C6: the composite-match confidence is the base 0.5 plus the four
additive bonuses capped at 1.0; each bonus takes only its claimed values
(title 0.2 exact / 0.1 substring, email domain 0.15, phone digits 0.10,
website hostname 0.05) and attaches to its claimed signal; and the score
is monotonically non-decreasing as matching signals are added while the
base match (the matched stored record) is held fixed. -/
theorem C6_composite_confidence :
    (∀ (hostname : String → Option String) (i : ParsedResearcher) (e : Researcher),
      calculateMatchConfidence hostname i e =
        min ((1/2 : ℚ) + titleBonus i e + emailBonus i e + phoneBonus i e +
          websiteBonus hostname i e) 1) ∧
    (∀ (i : ParsedResearcher) (e : Researcher),
      titleBonus i e = 0 ∨ titleBonus i e = 1/10 ∨ titleBonus i e = 1/5) ∧
    (∀ (i : ParsedResearcher) (e : Researcher),
      emailBonus i e = 0 ∨ emailBonus i e = 3/20) ∧
    (∀ (i : ParsedResearcher) (e : Researcher),
      phoneBonus i e = 0 ∨ phoneBonus i e = 1/10) ∧
    (∀ (hostname : String → Option String) (i : ParsedResearcher) (e : Researcher),
      websiteBonus hostname i e = 0 ∨ websiteBonus hostname i e = 1/20) ∧
    (∀ (i : ParsedResearcher) (e : Researcher) (ti te : String),
      i.title = some ti → e.title = some te → ti ≠ "" → te ≠ "" →
      lowerString ti = lowerString te → titleBonus i e = 1/5) ∧
    (∀ (i : ParsedResearcher) (e : Researcher) (ti te : String),
      i.title = some ti → e.title = some te → ti ≠ "" → te ≠ "" →
      lowerString ti ≠ lowerString te →
      (strIncludes (lowerString ti) (lowerString te) ||
        strIncludes (lowerString te) (lowerString ti)) = true →
      titleBonus i e = 1/10) ∧
    (∀ (i : ParsedResearcher) (e : Researcher) (ie ee : String),
      i.email = some ie → e.email = some ee → ie ≠ "" → ee ≠ "" →
      emailDomain ie = emailDomain ee → emailBonus i e = 3/20) ∧
    (∀ (i : ParsedResearcher) (e : Researcher) (ip ep : String),
      i.phone = some ip → e.phone = some ep → ip ≠ "" → ep ≠ "" →
      phoneDigits ip = phoneDigits ep → phoneBonus i e = 1/10) ∧
    (∀ (hostname : String → Option String) (i : ParsedResearcher)
        (e : Researcher) (iw ew hw : String),
      i.website = some iw → e.website = some ew → iw ≠ "" → ew ≠ "" →
      hostname iw = some hw → hostname ew = some hw →
      websiteBonus hostname i e = 1/20) ∧
    (∀ (hostname : String → Option String) (i j : ParsedResearcher)
        (e : Researcher),
      titleBonus i e ≤ titleBonus j e → emailBonus i e ≤ emailBonus j e →
      phoneBonus i e ≤ phoneBonus j e →
      websiteBonus hostname i e ≤ websiteBonus hostname j e →
      calculateMatchConfidence hostname i e ≤
        calculateMatchConfidence hostname j e) := by
  have hempty : ∀ s : String, s ≠ "" → s.isEmpty = false := by
    intro s hs
    rw [Bool.eq_false_iff, Ne, String.isEmpty_iff]
    exact hs
  refine ⟨fun _ _ _ => rfl, ?_, ?_, ?_, ?_, ?_, ?_, ?_, ?_, ?_, ?_⟩
  · intro i e
    rcases hti : i.title with _ | t1
    · simp [titleBonus, hti]
    · rcases hte : e.title with _ | t2
      · simp [titleBonus, hti, hte]
      · simp only [titleBonus, hti, hte]
        split_ifs
        · exact Or.inl rfl
        · exact Or.inr (Or.inr rfl)
        · exact Or.inr (Or.inl rfl)
        · exact Or.inl rfl
  · intro i e
    rcases hie : i.email with _ | s1
    · simp [emailBonus, hie]
    · rcases hee : e.email with _ | s2
      · simp [emailBonus, hie, hee]
      · simp only [emailBonus, hie, hee]
        split_ifs
        · exact Or.inl rfl
        · exact Or.inr rfl
        · exact Or.inl rfl
  · intro i e
    rcases hip : i.phone with _ | s1
    · simp [phoneBonus, hip]
    · rcases hep : e.phone with _ | s2
      · simp [phoneBonus, hip, hep]
      · simp only [phoneBonus, hip, hep]
        split_ifs
        · exact Or.inl rfl
        · exact Or.inr rfl
        · exact Or.inl rfl
  · intro hostname i e
    rcases hiw : i.website with _ | s1
    · simp [websiteBonus, hiw]
    · rcases hew : e.website with _ | s2
      · simp [websiteBonus, hiw, hew]
      · simp only [websiteBonus, hiw, hew]
        split_ifs
        · exact Or.inl rfl
        · split
          · split_ifs
            · exact Or.inr rfl
            · exact Or.inl rfl
          · exact Or.inl rfl
  · intro i e ti te hti hte h1 h2 heq
    simp [titleBonus, hti, hte, hempty ti h1, hempty te h2, heq]
  · intro i e ti te hti hte h1 h2 hne hsub
    have hbeq : (lowerString ti == lowerString te) = false :=
      beq_eq_false_iff_ne.mpr hne
    simp [titleBonus, hti, hte, hempty ti h1, hempty te h2, hbeq, hsub]
  · intro i e ie ee hie hee h1 h2 heq
    simp [emailBonus, hie, hee, hempty ie h1, hempty ee h2, heq]
  · intro i e ip ep hip hep h1 h2 heq
    simp [phoneBonus, hip, hep, hempty ip h1, hempty ep h2, heq]
  · intro hostname i e iw ew hw hiw hew h1 h2 hhw1 hhw2
    simp [websiteBonus, hiw, hew, hempty iw h1, hempty ew h2, hhw1, hhw2]
  · intro hostname i j e h1 h2 h3 h4
    refine min_le_min ?_ le_rfl
    exact add_le_add (add_le_add (add_le_add (add_le_add le_rfl h1) h2) h3) h4

/-- C6 witness: against the stored record c6Existing, the candidate with
no signals scores no higher than the same candidate with an exactly
matching title, whose title bonus is 0.2. -/
theorem C6_composite_confidence_witness :
    titleBonus c6Strong c6Existing = 1/5 ∧
    calculateMatchConfidence hostNone c6Weak c6Existing ≤
      calculateMatchConfidence hostNone c6Strong c6Existing := by
  constructor
  · exact C6_composite_confidence.2.2.2.2.2.1 c6Strong c6Existing
      "Professor" "Professor" rfl rfl (by decide) (by decide) rfl
  · refine C6_composite_confidence.2.2.2.2.2.2.2.2.2.2 hostNone c6Weak c6Strong
      c6Existing ?_ ?_ ?_ ?_
    · rw [show titleBonus c6Weak c6Existing = 0 from rfl,
        show titleBonus c6Strong c6Existing = 1/5 from rfl]
      norm_num
    · rw [show emailBonus c6Weak c6Existing = 0 from rfl,
        show emailBonus c6Strong c6Existing = 0 from rfl]
    · rw [show phoneBonus c6Weak c6Existing = 0 from rfl,
        show phoneBonus c6Strong c6Existing = 0 from rfl]
    · rw [show websiteBonus hostNone c6Weak c6Existing = 0 from rfl,
        show websiteBonus hostNone c6Strong c6Existing = 0 from rfl]

end FacultyScraper
